import Mathlib

/-!
Shallow embedding of the Core Banking Simulator's core services
(`core_banking/services/ledger_service.py`, `transaction_service.py`,
`account_service.py`) and the data model of `core_banking/models/`.

Modelling conventions:
* Monetary amounts are `NUMERIC(19,4)` decimals in the source; they are
  modelled as `Int` counts of 0.0001 currency units, which makes every
  comparison and sum exact, as the source requires.
* Timestamps (`datetime.utcnow()`) are modelled as a `Nat` clock value that
  every operation receives as an explicit `now` argument.
* `uuid.uuid4()` is modelled as drawing a fresh value from the `next_uuid`
  counter carried in the database state; freshness of freshly minted
  identifiers is stated as an explicit hypothesis where it matters.
* Each SQL table is a list of rows in insertion order; `AUTOINCREMENT`
  primary keys are the `next_*` counters.
* A Python `raise ValueError(...)` site is modelled as returning an `Err`
  value; the constructors follow the error taxonomy the raise sites encode
  in their messages.
* The services never commit; the session state they leave behind (adds and
  in-place ORM mutations already flushed) is the returned database value,
  also on the error paths, exactly as the session would hold them.
-/

namespace CoreBanking

/-- Accounting categories of `models/enums.py` `AccountType`. -/
inductive AccountType where
  | ASSET
  | LIABILITY
  | EQUITY
  | REVENUE
  | EXPENSE
deriving DecidableEq, Repr

/-- Direction of a ledger entry, `models/enums.py` `EntryType`. -/
inductive EntryType where
  | DEBIT
  | CREDIT
deriving DecidableEq, Repr

/-- Customer-facing product types, `models/enums.py` `CustomerAccountType`. -/
inductive CustomerAccountType where
  | CHECKING
  | SAVINGS
  | CREDIT
  | PREPAID
deriving DecidableEq, Repr

/-- Account lifecycle states, `models/enums.py` `AccountStatus`. -/
inductive AccountStatus where
  | PENDING
  | ACTIVE
  | FROZEN
  | BLOCKED
  | CLOSED
deriving DecidableEq, Repr

/-- Business transaction types, `models/enums.py` `TransactionType`. -/
inductive TransactionType where
  | DEPOSIT
  | WITHDRAWAL
  | TRANSFER
  | REVERSAL
deriving DecidableEq, Repr

/-- Business transaction states, `models/enums.py` `TransactionStatus`. -/
inductive TransactionStatus where
  | PENDING
  | PROCESSING
  | COMPLETED
  | FAILED
  | REVERSED
deriving DecidableEq, Repr

/-- Error kinds of the `raise ValueError(...)` sites of the services,
named after the spec's error taxonomy which the messages encode. -/
inductive Err where
  | conflict
  | notFound
  | accountInactive
  | currencyMismatch
  | unbalanced
  | insufficientFunds
  | sameAccount
  | notReversible
  | illegalTransition
deriving DecidableEq, Repr

/-- The human-readable message stored into `error_message` (`str(e)` in the
source); the exact text is irrelevant to all claims. -/
def Err.message : Err → String
  | .conflict => "already exists"
  | .notFound => "not found"
  | .accountInactive => "is not active"
  | .currencyMismatch => "currency mismatch"
  | .unbalanced => "Transaction does not balance"
  | .insufficientFunds => "Insufficient balance"
  | .sameAccount => "Cannot transfer to the same account"
  | .notReversible => "Can only reverse completed transactions"
  | .illegalTransition => "Cannot transition"

/-- Row of `ledger_accounts`, `models/ledger_account.py`. -/
structure LedgerAccount where
  id : Nat
  code : String
  name : String
  account_type : AccountType
  currency : String
  is_active : Bool
deriving DecidableEq, Repr

/-- Row of `ledger_entries`, `models/ledger_entry.py`. -/
structure LedgerEntry where
  id : Nat
  transaction_id : Nat
  account_id : Nat
  entry_type : EntryType
  amount : Int
  currency : String
  description : String
  created_at : Nat
deriving DecidableEq, Repr

/-- Row of `customers`, `models/customer.py` (KYC fields omitted: no claim
and no service logic reads them). -/
structure Customer where
  id : Nat
  first_name : String
  last_name : String
  email : String
  is_active : Bool
deriving DecidableEq, Repr

/-- Row of `accounts`, `models/account.py`. -/
structure Account where
  id : Nat
  customer_id : Nat
  ledger_account_id : Nat
  account_type : CustomerAccountType
  status : AccountStatus
  currency : String
  opened_at : Option Nat
  closed_at : Option Nat
deriving DecidableEq, Repr

/-- Row of `transactions`, `models/transaction.py`. -/
structure Transaction where
  id : Nat
  idempotency_key : String
  transaction_type : TransactionType
  status : TransactionStatus
  source_account_id : Option Nat
  destination_account_id : Option Nat
  amount : Int
  currency : String
  description : String
  reference_transaction_id : Option Nat
  ledger_transaction_id : Option Nat
  error_message : Option String
  completed_at : Option Nat
deriving DecidableEq, Repr

/-- The database session state: each table as a list of rows in insertion
order, plus autoincrement counters and the uuid source. -/
structure DB where
  customers : List Customer
  accounts : List Account
  ledger_accounts : List LedgerAccount
  ledger_entries : List LedgerEntry
  transactions : List Transaction
  next_customer_id : Nat
  next_account_id : Nat
  next_ledger_account_id : Nat
  next_entry_id : Nat
  next_txn_id : Nat
  next_uuid : Nat
deriving DecidableEq, Repr

/-- The empty database. -/
def DB.empty : DB :=
  { customers := [], accounts := [], ledger_accounts := [], ledger_entries := [],
    transactions := [], next_customer_id := 1, next_account_id := 1,
    next_ledger_account_id := 1, next_entry_id := 1, next_txn_id := 1, next_uuid := 1 }

/-- Request schema `LedgerAccountCreate` of `schemas/ledger.py`. -/
structure LedgerAccountCreate where
  code : String
  name : String
  account_type : AccountType
  currency : String
deriving DecidableEq, Repr

/-- Request schema `LedgerEntryCreate` of `schemas/ledger.py`. -/
structure LedgerEntryCreate where
  account_id : Nat
  entry_type : EntryType
  amount : Int
  description : String
deriving DecidableEq, Repr

/-- Request schema `PostEntriesRequest` of `schemas/ledger.py`. -/
structure PostEntriesRequest where
  transaction_id : Nat
  currency : String
  entries : List LedgerEntryCreate
deriving DecidableEq, Repr

/-- Request schema `CustomerCreate` of `schemas/account.py`. -/
structure CustomerCreate where
  first_name : String
  last_name : String
  email : String
deriving DecidableEq, Repr

/-- Request schema `AccountOpen` of `schemas/account.py`. -/
structure AccountOpen where
  customer_id : Nat
  account_type : CustomerAccountType
  currency : String
deriving DecidableEq, Repr

/-- Request schema `AccountStatusUpdate` of `schemas/account.py`; `reason`
is carried but, as in `AccountService.change_status`, never read. -/
structure AccountStatusUpdate where
  new_status : AccountStatus
  reason : String
deriving DecidableEq, Repr

/-- Request schema `DepositRequest` of `schemas/transaction.py`. -/
structure DepositRequest where
  account_id : Nat
  amount : Int
  currency : String
  description : String
  idempotency_key : String
deriving DecidableEq, Repr

/-- Request schema `WithdrawalRequest` of `schemas/transaction.py`. -/
structure WithdrawalRequest where
  account_id : Nat
  amount : Int
  currency : String
  description : String
  idempotency_key : String
deriving DecidableEq, Repr

/-- Request schema `TransferRequest` of `schemas/transaction.py`. -/
structure TransferRequest where
  source_account_id : Nat
  destination_account_id : Nat
  amount : Int
  currency : String
  description : String
  idempotency_key : String
deriving DecidableEq, Repr

/-- Lookup of a `ledger_accounts` row by primary key (`select ... where
LedgerAccount.id == account_id`). -/
def findLedgerAccount (db : DB) (i : Nat) : Option LedgerAccount :=
  db.ledger_accounts.find? (fun a => a.id == i)

/-- Lookup of an `accounts` row by primary key (`db.get(Account, id)`). -/
def findAccount (db : DB) (i : Nat) : Option Account :=
  db.accounts.find? (fun a => a.id == i)

/-- Lookup of a `transactions` row by primary key (`db.get(Transaction, id)`). -/
def findTransaction (db : DB) (i : Nat) : Option Transaction :=
  db.transactions.find? (fun t => t.id == i)

/-- Sum of the amounts of the requested entries with the given direction:
the `sum(e.amount for e in request.entries if e.entry_type == t)` of
`LedgerService.post_entries`. -/
def requestTotal (es : List LedgerEntryCreate) (t : EntryType) : Int :=
  ((es.filter (fun e => e.entry_type == t)).map (fun e => e.amount)).sum

/-- Sum of the amounts of stored entries with the given direction. -/
def entriesTotal (es : List LedgerEntry) (t : EntryType) : Int :=
  ((es.filter (fun e => e.entry_type == t)).map (fun e => e.amount)).sum

/-- The rows inserted by the entry-creation loop of
`LedgerService.post_entries`: consecutive autoincrement ids starting at
`startId`, the posting's transaction id and currency stamped on each row. -/
def mkEntries (startId : Nat) (now : Nat) (txnId : Nat) (currency : String) :
    List LedgerEntryCreate → List LedgerEntry
  | [] => []
  | e :: es =>
    { id := startId
      transaction_id := txnId
      account_id := e.account_id
      entry_type := e.entry_type
      amount := e.amount
      currency := currency
      description := e.description
      created_at := now } :: mkEntries (startId + 1) now txnId currency es

/-- Embedding of `LedgerService.create_account`. -/
def create_ledger_account (db : DB) (req : LedgerAccountCreate) :
    Except Err (LedgerAccount × DB) :=
  if db.ledger_accounts.any (fun a => a.code == req.code) then
    .error .conflict
  else
    let account : LedgerAccount :=
      { id := db.next_ledger_account_id
        code := req.code
        name := req.name
        account_type := req.account_type
        currency := req.currency
        is_active := true }
    .ok (account,
      { db with
        ledger_accounts := db.ledger_accounts ++ [account]
        next_ledger_account_id := db.next_ledger_account_id + 1 })

/-- Embedding of `LedgerService.post_entries`. The account validations
iterate over the set of distinct referenced account ids, as the source
builds `account_ids = {entry.account_id for entry in request.entries}`. -/
def post_entries (db : DB) (now : Nat) (req : PostEntriesRequest) :
    Except Err (List LedgerEntry × DB) :=
  if db.ledger_entries.any (fun e => e.transaction_id == req.transaction_id) then
    .ok (db.ledger_entries.filter (fun e => e.transaction_id == req.transaction_id), db)
  else
    let ids := (req.entries.map (fun e => e.account_id)).dedup
    if ids.any (fun i => (findLedgerAccount db i).isNone) then
      .error .notFound
    else if ids.any (fun i =>
        match findLedgerAccount db i with
        | some a => !a.is_active
        | none => false) then
      .error .accountInactive
    else if ids.any (fun i =>
        match findLedgerAccount db i with
        | some a => a.currency != req.currency
        | none => false) then
      .error .currencyMismatch
    else
      let total_debits := requestTotal req.entries .DEBIT
      let total_credits := requestTotal req.entries .CREDIT
      if total_debits ≠ total_credits then
        .error .unbalanced
      else
        let ledger_entries :=
          mkEntries db.next_entry_id now req.transaction_id req.currency req.entries
        .ok (ledger_entries,
          { db with
            ledger_entries := db.ledger_entries ++ ledger_entries
            next_entry_id := db.next_entry_id + req.entries.length })

/-- Embedding of `LedgerService.get_account_balance`: the two SQL aggregate
sums (`coalesce(sum(amount), 0)` over each direction) and the sign
convention switch on the account category. -/
def get_account_balance (db : DB) (account_id : Nat) : Except Err Int :=
  match findLedgerAccount db account_id with
  | none => .error .notFound
  | some account =>
    let total_debits :=
      entriesTotal (db.ledger_entries.filter (fun e => e.account_id == account_id)) .DEBIT
    let total_credits :=
      entriesTotal (db.ledger_entries.filter (fun e => e.account_id == account_id)) .CREDIT
    if account.account_type = .ASSET ∨ account.account_type = .EXPENSE then
      .ok (total_debits - total_credits)
    else
      .ok (total_credits - total_debits)

/-- Embedding of `LedgerService.get_entries_by_transaction`. -/
def get_entries_by_transaction (db : DB) (txnId : Nat) : List LedgerEntry :=
  db.ledger_entries.filter (fun e => e.transaction_id == txnId)

/-- Ordering relation of the `order_by(LedgerEntry.created_at.desc())`
clause of `LedgerService.get_entries_by_account`: newest first. -/
def newestFirst (a b : LedgerEntry) : Prop :=
  b.created_at ≤ a.created_at

instance : DecidableRel newestFirst := fun a b =>
  inferInstanceAs (Decidable (b.created_at ≤ a.created_at))

instance : IsTotal LedgerEntry newestFirst :=
  ⟨fun a b => Nat.le_total b.created_at a.created_at⟩

instance : IsTrans LedgerEntry newestFirst :=
  ⟨fun _ _ _ hab hbc => Nat.le_trans hbc hab⟩

/-- Contract of the SQL query of `LedgerService.get_entries_by_account`:
`select ... where account_id == i order_by created_at desc`. SQL fixes the
multiset of rows and requires the output to be non-increasing in
`created_at`; rows with equal `created_at` may come back in any order,
since the query names no further sort key. -/
def entriesByAccountSpec (db : DB) (i : Nat) (l : List LedgerEntry) : Prop :=
  l.Perm (db.ledger_entries.filter (fun e => e.account_id == i)) ∧
  l.Pairwise newestFirst

instance (db : DB) (i : Nat) (l : List LedgerEntry) :
    Decidable (entriesByAccountSpec db i l) :=
  inferInstanceAs (Decidable (_ ∧ _))

/-- Executable model of `LedgerService.get_entries_by_account`: one run of
the query, resolving the tie order left open by SQL as a stable sort of the
table order. -/
def get_entries_by_account (db : DB) (i : Nat) : List LedgerEntry :=
  (db.ledger_entries.filter (fun e => e.account_id == i)).insertionSort newestFirst

/-- The `VALID_TRANSITIONS` table of `models/account.py`, as the
`Account.can_transition_to` check. -/
def can_transition_to (s new : AccountStatus) : Bool :=
  match s with
  | .PENDING => new == .ACTIVE || new == .CLOSED
  | .ACTIVE => new == .FROZEN || new == .BLOCKED || new == .CLOSED
  | .FROZEN => new == .ACTIVE || new == .BLOCKED
  | .BLOCKED => new == .CLOSED
  | .CLOSED => false

/-- ORM in-place mutation of an `accounts` row, observed at flush. -/
def updateAccount (db : DB) (i : Nat) (a : Account) : DB :=
  { db with accounts := db.accounts.map (fun x => if x.id == i then a else x) }

/-- ORM in-place mutation of a `transactions` row, observed at flush. -/
def updateTransaction (db : DB) (i : Nat) (t : Transaction) : DB :=
  { db with transactions := db.transactions.map (fun x => if x.id == i then t else x) }

/-- ORM in-place mutation `account.ledger_account.is_active = False` of
`AccountService.change_status` on the CLOSED transition. -/
def deactivateLedgerAccount (db : DB) (i : Nat) : DB :=
  { db with
    ledger_accounts := db.ledger_accounts.map (fun a =>
      if a.id == i then { a with is_active := false } else a) }

/-- Embedding of `AccountService.create_customer`. -/
def create_customer (db : DB) (req : CustomerCreate) : Except Err (Customer × DB) :=
  if db.customers.any (fun c => c.email == req.email) then
    .error .conflict
  else
    let customer : Customer :=
      { id := db.next_customer_id
        first_name := req.first_name
        last_name := req.last_name
        email := req.email
        is_active := true }
    .ok (customer,
      { db with
        customers := db.customers ++ [customer]
        next_customer_id := db.next_customer_id + 1 })

/-- Zero-padding of `f"{customer.id:05d}"` in `AccountService.open_account`. -/
def pad5 (n : Nat) : String :=
  let s := toString n
  String.mk (List.replicate (5 - s.length) (Char.ofNat 48)) ++ s

/-- Wire form of a customer product type, `CustomerAccountType.value`. -/
def CustomerAccountType.value : CustomerAccountType → String
  | .CHECKING => "CHECKING"
  | .SAVINGS => "SAVINGS"
  | .CREDIT => "CREDIT"
  | .PREPAID => "PREPAID"

/-- Embedding of `AccountService.open_account`: validates the customer,
creates the paired ledger account (`ACCOUNT_TYPE_TO_LEDGER_TYPE` maps every
product type to LIABILITY), then the PENDING business account. -/
def open_account (db : DB) (req : AccountOpen) : Except Err (Account × DB) :=
  match db.customers.find? (fun c => c.id == req.customer_id) with
  | none => .error .notFound
  | some customer =>
    if !customer.is_active then
      .error .accountInactive
    else
      match create_ledger_account db
          { code := "CUST-" ++ CustomerAccountType.value req.account_type ++ "-"
              ++ pad5 customer.id
            name := customer.first_name ++ " " ++ customer.last_name ++ " "
              ++ CustomerAccountType.value req.account_type
            account_type := .LIABILITY
            currency := req.currency } with
      | .error e => .error e
      | .ok (ledger_account, db1) =>
        let account : Account :=
          { id := db1.next_account_id
            customer_id := customer.id
            ledger_account_id := ledger_account.id
            account_type := req.account_type
            status := .PENDING
            currency := req.currency
            opened_at := none
            closed_at := none }
        .ok (account,
          { db1 with
            accounts := db1.accounts ++ [account]
            next_account_id := db1.next_account_id + 1 })

/-- Embedding of `AccountService.change_status`: validates the transition
against the state machine, applies it, and records the timestamps exactly
as the source does — entering ACTIVE assigns `opened_at = now()`
unconditionally, entering CLOSED assigns `closed_at` and deactivates the
paired ledger account. -/
def change_status (db : DB) (now : Nat) (account_id : Nat)
    (req : AccountStatusUpdate) : Except Err (Account × DB) :=
  match findAccount db account_id with
  | none => .error .notFound
  | some account =>
    if !can_transition_to account.status req.new_status then
      .error .illegalTransition
    else
      let account1 :=
        if req.new_status = .ACTIVE then
          { account with status := req.new_status, opened_at := some now }
        else if req.new_status = .CLOSED then
          { account with status := req.new_status, closed_at := some now }
        else
          { account with status := req.new_status }
      let db1 := updateAccount db account_id account1
      let db2 :=
        if req.new_status = .CLOSED then
          deactivateLedgerAccount db1 account.ledger_account_id
        else db1
      .ok (account1, db2)

/-- The bank-internal cash account code, `CASH_ACCOUNT_CODE`. -/
def CASH_ACCOUNT_CODE : String := "BANK-CASH-001"

/-- Embedding of `TransactionService._check_idempotency`. -/
def check_idempotency (db : DB) (key : String) : Option Transaction :=
  db.transactions.find? (fun t => t.idempotency_key == key)

/-- Embedding of `TransactionService._validate_account`. -/
def validate_account (db : DB) (account_id : Nat) (currency : String) :
    Except Err Account :=
  match findAccount db account_id with
  | none => .error .notFound
  | some account =>
    if account.status ≠ .ACTIVE then
      .error .accountInactive
    else if account.currency ≠ currency then
      .error .currencyMismatch
    else
      .ok account

/-- Embedding of `TransactionService._get_or_create_cash_account`: a lookup
by code, creating the row only when none exists. -/
def get_or_create_cash_account (db : DB) (currency : String) :
    Except Err (LedgerAccount × DB) :=
  match db.ledger_accounts.find? (fun a => a.code == CASH_ACCOUNT_CODE) with
  | some cash => .ok (cash, db)
  | none =>
    create_ledger_account db
      { code := CASH_ACCOUNT_CODE
        name := "Bank Cash Account"
        account_type := .ASSET
        currency := currency }

/-- Embedding of `TransactionService.deposit`. The returned state is the
session content when the method returns or raises: on a ledger-posting
failure the PROCESSING row has been flipped to FAILED with the error
message, exactly as the except-branch of the source leaves it. -/
def deposit (db : DB) (now : Nat) (req : DepositRequest) :
    Except Err Transaction × DB :=
  match check_idempotency db req.idempotency_key with
  | some existing => (.ok existing, db)
  | none =>
    match validate_account db req.account_id req.currency with
    | .error e => (.error e, db)
    | .ok account =>
      match get_or_create_cash_account db req.currency with
      | .error e => (.error e, db)
      | .ok (cash, db1) =>
        let ledger_txn_id := db1.next_uuid
        let db2 := { db1 with next_uuid := db1.next_uuid + 1 }
        let txn : Transaction :=
          { id := db2.next_txn_id
            idempotency_key := req.idempotency_key
            transaction_type := .DEPOSIT
            status := .PROCESSING
            source_account_id := none
            destination_account_id := some account.id
            amount := req.amount
            currency := req.currency
            description := req.description
            reference_transaction_id := none
            ledger_transaction_id := some ledger_txn_id
            error_message := none
            completed_at := none }
        let db3 :=
          { db2 with
            transactions := db2.transactions ++ [txn]
            next_txn_id := db2.next_txn_id + 1 }
        match post_entries db3 now
            { transaction_id := ledger_txn_id
              currency := req.currency
              entries :=
                [{ account_id := cash.id, entry_type := .DEBIT,
                   amount := req.amount, description := req.description },
                 { account_id := account.ledger_account_id, entry_type := .CREDIT,
                   amount := req.amount, description := req.description }] } with
        | .ok (_, db4) =>
          let txn1 := { txn with status := .COMPLETED, completed_at := some now }
          (.ok txn1, updateTransaction db4 txn.id txn1)
        | .error e =>
          let txn1 := { txn with status := .FAILED, error_message := some e.message }
          (.error e, updateTransaction db3 txn.id txn1)

/-- Embedding of `TransactionService.withdraw`, including the
sufficient-balance check between account validation and posting. -/
def withdraw (db : DB) (now : Nat) (req : WithdrawalRequest) :
    Except Err Transaction × DB :=
  match check_idempotency db req.idempotency_key with
  | some existing => (.ok existing, db)
  | none =>
    match validate_account db req.account_id req.currency with
    | .error e => (.error e, db)
    | .ok account =>
      match get_or_create_cash_account db req.currency with
      | .error e => (.error e, db)
      | .ok (cash, db1) =>
        match get_account_balance db1 account.ledger_account_id with
        | .error e => (.error e, db1)
        | .ok balance =>
          if balance < req.amount then
            (.error .insufficientFunds, db1)
          else
            let ledger_txn_id := db1.next_uuid
            let db2 := { db1 with next_uuid := db1.next_uuid + 1 }
            let txn : Transaction :=
              { id := db2.next_txn_id
                idempotency_key := req.idempotency_key
                transaction_type := .WITHDRAWAL
                status := .PROCESSING
                source_account_id := some account.id
                destination_account_id := none
                amount := req.amount
                currency := req.currency
                description := req.description
                reference_transaction_id := none
                ledger_transaction_id := some ledger_txn_id
                error_message := none
                completed_at := none }
            let db3 :=
              { db2 with
                transactions := db2.transactions ++ [txn]
                next_txn_id := db2.next_txn_id + 1 }
            match post_entries db3 now
                { transaction_id := ledger_txn_id
                  currency := req.currency
                  entries :=
                    [{ account_id := account.ledger_account_id, entry_type := .DEBIT,
                       amount := req.amount, description := req.description },
                     { account_id := cash.id, entry_type := .CREDIT,
                       amount := req.amount, description := req.description }] } with
            | .ok (_, db4) =>
              let txn1 := { txn with status := .COMPLETED, completed_at := some now }
              (.ok txn1, updateTransaction db4 txn.id txn1)
            | .error e =>
              let txn1 := { txn with status := .FAILED, error_message := some e.message }
              (.error e, updateTransaction db3 txn.id txn1)

/-- Embedding of `TransactionService.transfer`: the idempotency probe comes
first, then the same-account guard, then account validation and the
sufficient-balance check on the source. -/
def transfer (db : DB) (now : Nat) (req : TransferRequest) :
    Except Err Transaction × DB :=
  match check_idempotency db req.idempotency_key with
  | some existing => (.ok existing, db)
  | none =>
    if req.source_account_id == req.destination_account_id then
      (.error .sameAccount, db)
    else
      match validate_account db req.source_account_id req.currency with
      | .error e => (.error e, db)
      | .ok source =>
        match validate_account db req.destination_account_id req.currency with
        | .error e => (.error e, db)
        | .ok destination =>
          match get_account_balance db source.ledger_account_id with
          | .error e => (.error e, db)
          | .ok balance =>
            if balance < req.amount then
              (.error .insufficientFunds, db)
            else
              let ledger_txn_id := db.next_uuid
              let db2 := { db with next_uuid := db.next_uuid + 1 }
              let txn : Transaction :=
                { id := db2.next_txn_id
                  idempotency_key := req.idempotency_key
                  transaction_type := .TRANSFER
                  status := .PROCESSING
                  source_account_id := some source.id
                  destination_account_id := some destination.id
                  amount := req.amount
                  currency := req.currency
                  description := req.description
                  reference_transaction_id := none
                  ledger_transaction_id := some ledger_txn_id
                  error_message := none
                  completed_at := none }
              let db3 :=
                { db2 with
                  transactions := db2.transactions ++ [txn]
                  next_txn_id := db2.next_txn_id + 1 }
              match post_entries db3 now
                  { transaction_id := ledger_txn_id
                    currency := req.currency
                    entries :=
                      [{ account_id := source.ledger_account_id, entry_type := .DEBIT,
                         amount := req.amount, description := req.description },
                       { account_id := destination.ledger_account_id,
                         entry_type := .CREDIT,
                         amount := req.amount, description := req.description }] } with
              | .ok (_, db4) =>
                let txn1 := { txn with status := .COMPLETED, completed_at := some now }
                (.ok txn1, updateTransaction db4 txn.id txn1)
              | .error e =>
                let txn1 := { txn with status := .FAILED, error_message := some e.message }
                (.error e, updateTransaction db3 txn.id txn1)

/-- Direction swap of the reversal loop in `TransactionService.reverse`. -/
def swapDirection : EntryType → EntryType
  | .DEBIT => .CREDIT
  | .CREDIT => .DEBIT

/-- The reversal image of one stored entry, as built by the loop of
`TransactionService.reverse`: same account and amount, swapped direction,
description prefixed with the reversal marker. -/
def reversalCreate (e : LedgerEntry) : LedgerEntryCreate :=
  { account_id := e.account_id
    entry_type := swapDirection e.entry_type
    amount := e.amount
    description := "Reversal: " ++ e.description }

/-- Embedding of `TransactionService.reverse`. The guard sequence follows
the source: idempotency probe, lookup, the COMPLETED-only check (the
subsequent explicit already-REVERSED check of the source is unreachable,
since REVERSED already fails the COMPLETED-only check). On success the
original row is flipped to REVERSED and the new REVERSAL row completed. -/
def reverse (db : DB) (now : Nat) (transaction_id : Nat)
    (idempotency_key : String) : Except Err Transaction × DB :=
  match check_idempotency db idempotency_key with
  | some existing => (.ok existing, db)
  | none =>
    match findTransaction db transaction_id with
    | none => (.error .notFound, db)
    | some original =>
      if original.status ≠ .COMPLETED then
        (.error .notReversible, db)
      else
        let original_entries :=
          match original.ledger_transaction_id with
          | some u => get_entries_by_transaction db u
          | none => []
        let reversal_entries := original_entries.map reversalCreate
        let reversal_ledger_txn_id := db.next_uuid
        let db2 := { db with next_uuid := db.next_uuid + 1 }
        let txn : Transaction :=
          { id := db2.next_txn_id
            idempotency_key := idempotency_key
            transaction_type := .REVERSAL
            status := .PROCESSING
            source_account_id := original.source_account_id
            destination_account_id := original.destination_account_id
            amount := original.amount
            currency := original.currency
            description := "Reversal of transaction " ++ toString original.id
            reference_transaction_id := some original.id
            ledger_transaction_id := some reversal_ledger_txn_id
            error_message := none
            completed_at := none }
        let db3 :=
          { db2 with
            transactions := db2.transactions ++ [txn]
            next_txn_id := db2.next_txn_id + 1 }
        match post_entries db3 now
            { transaction_id := reversal_ledger_txn_id
              currency := original.currency
              entries := reversal_entries } with
        | .ok (_, db4) =>
          let txn1 := { txn with status := .COMPLETED, completed_at := some now }
          let db5 := updateTransaction db4 original.id { original with status := .REVERSED }
          (.ok txn1, updateTransaction db5 txn.id txn1)
        | .error e =>
          let txn1 := { txn with status := .FAILED, error_message := some e.message }
          (.error e, updateTransaction db3 txn.id txn1)

/-- One request against the system: the write operations the services
expose (reads change nothing). -/
inductive Op where
  | createLedgerAccount (req : LedgerAccountCreate)
  | postEntries (req : PostEntriesRequest)
  | createCustomer (req : CustomerCreate)
  | openAccount (req : AccountOpen)
  | changeStatus (account_id : Nat) (req : AccountStatusUpdate)
  | opDeposit (req : DepositRequest)
  | opWithdraw (req : WithdrawalRequest)
  | opTransfer (req : TransferRequest)
  | opReverse (transaction_id : Nat) (idempotency_key : String)
deriving DecidableEq, Repr

/-- The session state an operation leaves behind. Operations of the ledger
and account services write nothing before their raise sites, so their error
branches leave the state unchanged; the business operations keep the
session content of their failure paths (the FAILED row), as the service
leaves it to the caller. -/
def applyOp (db : DB) (now : Nat) : Op → DB
  | .createLedgerAccount req =>
    match create_ledger_account db req with
    | .ok (_, db1) => db1
    | .error _ => db
  | .postEntries req =>
    match post_entries db now req with
    | .ok (_, db1) => db1
    | .error _ => db
  | .createCustomer req =>
    match create_customer db req with
    | .ok (_, db1) => db1
    | .error _ => db
  | .openAccount req =>
    match open_account db req with
    | .ok (_, db1) => db1
    | .error _ => db
  | .changeStatus i req =>
    match change_status db now i req with
    | .ok (_, db1) => db1
    | .error _ => db
  | .opDeposit req => (deposit db now req).2
  | .opWithdraw req => (withdraw db now req).2
  | .opTransfer req => (transfer db now req).2
  | .opReverse i key => (reverse db now i key).2

/-- A run of the system: requests applied in order, each at its own clock
value. -/
def runOps (db : DB) (ops : List (Nat × Op)) : DB :=
  ops.foldl (fun s p => applyOp s p.1 p.2) db

/-- Sum of all DEBIT amounts of the whole `ledger_entries` table, the
`totalDebits` aggregate of the integrity check. -/
def totalDebits (db : DB) : Int :=
  entriesTotal db.ledger_entries .DEBIT

/-- Sum of all CREDIT amounts of the whole `ledger_entries` table. -/
def totalCredits (db : DB) : Int :=
  entriesTotal db.ledger_entries .CREDIT

/-- The global double-entry invariant: the whole ledger balances. -/
def balancedLedger (db : DB) : Prop :=
  totalDebits db = totalCredits db

instance (db : DB) : Decidable (balancedLedger db) :=
  inferInstanceAs (Decidable (_ = _))

/-- Signed contribution of one entry to its account's balance under the
sign convention: ASSET and EXPENSE balances grow with debits, the other
categories grow with credits. -/
def signedAmount (t : AccountType) (e : LedgerEntry) : Int :=
  if t = .ASSET ∨ t = .EXPENSE then
    (if e.entry_type = .DEBIT then e.amount else -e.amount)
  else
    (if e.entry_type = .CREDIT then e.amount else -e.amount)

/-- Balance of an account computed as one running sum from scratch over the
whole entry log — the reference computation the spec compares
`GetBalance` against. -/
def runningBalance (db : DB) (i : Nat) (t : AccountType) : Int :=
  ((db.ledger_entries.filter (fun e => e.account_id == i)).map (signedAmount t)).sum

/-- Net debit-minus-credit effect of a batch of entries on one account. -/
def netBalance (i : Nat) (l : List LedgerEntry) : Int :=
  (l.map (fun e =>
    if e.account_id == i then
      (if e.entry_type = .DEBIT then e.amount else -e.amount)
    else 0)).sum

/-- A ledger account that `post_entries` would accept for a posting in the
given currency: it exists, is active, and carries that currency. -/
def accountOkB (db : DB) (currency : String) (i : Nat) : Bool :=
  match findLedgerAccount db i with
  | some a => a.is_active && a.currency == currency
  | none => false

/-- Well-formedness of the business-transaction table: autoincrement ids
are below the counter, and both unique columns (`id`,
`idempotency_key`) hold no duplicates. -/
def goodTxns (l : List Transaction) (next : Nat) : Prop :=
  (∀ t ∈ l, t.id < next) ∧
  (l.map (fun t => t.id)).Nodup ∧
  (l.map (fun t => t.idempotency_key)).Nodup

/-- Well-formedness of the database's transaction table. -/
def goodDB (db : DB) : Prop :=
  goodTxns db.transactions db.next_txn_id

instance (l : List Transaction) (next : Nat) : Decidable (goodTxns l next) :=
  inferInstanceAs (Decidable (_ ∧ _ ∧ _))

instance (db : DB) : Decidable (goodDB db) :=
  inferInstanceAs (Decidable (goodTxns _ _))

/-! Concrete states used by witnesses and counterexamples. -/

/-- Seed entry of the C2 witness state: a posting with transaction id 7. -/
def c2entry : LedgerEntry :=
  { id := 1, transaction_id := 7, account_id := 1, entry_type := .DEBIT,
    amount := 1000000, currency := "USD", description := "seed", created_at := 1 }

/-- Witness state holding one entry under transaction id 7. -/
def c2db : DB := { DB.empty with ledger_entries := [c2entry], next_entry_id := 2 }

/-- Replay of transaction id 7 with a payload that would fail every
validation: unknown account, fresh currency, unbalanced single entry. -/
def c2req : PostEntriesRequest :=
  { transaction_id := 7, currency := "EUR",
    entries := [{ account_id := 999, entry_type := .DEBIT, amount := 5,
                  description := "invalid replay" }] }

/-- First of two entries sharing account 1 and creation time 5. -/
def c9e1 : LedgerEntry :=
  { id := 1, transaction_id := 1, account_id := 1, entry_type := .DEBIT,
    amount := 100, currency := "USD", description := "a", created_at := 5 }

/-- Second entry with the same account and creation time, higher id. -/
def c9e2 : LedgerEntry :=
  { id := 2, transaction_id := 1, account_id := 1, entry_type := .CREDIT,
    amount := 100, currency := "USD", description := "b", created_at := 5 }

/-- State with two equal-timestamp entries on account 1. -/
def c9db : DB := { DB.empty with ledger_entries := [c9e1, c9e2], next_entry_id := 3 }

/-- A pending account, about to be activated for the first time. -/
def c7acct : Account :=
  { id := 1, customer_id := 1, ledger_account_id := 1, account_type := .CHECKING,
    status := .PENDING, currency := "USD", opened_at := none, closed_at := none }

/-- State holding only the pending account. -/
def c7db : DB := { DB.empty with accounts := [c7acct], next_account_id := 2 }

/-- The state after the first activation, at time 10. -/
def c7mid : DB :=
  runOps c7db [(10, .changeStatus 1 { new_status := .ACTIVE, reason := "kyc" })]

/-- The state after freezing at 20 and re-activating at 30. -/
def c7run : DB :=
  runOps c7mid
    [(20, .changeStatus 1 { new_status := .FROZEN, reason := "risk" }),
     (30, .changeStatus 1 { new_status := .ACTIVE, reason := "cleared" })]

/-- A frozen account carrying the opened-at value of its first activation. -/
def c7facct : Account := { c7acct with status := .FROZEN, opened_at := some 10 }

/-- State holding only the frozen account. -/
def c7fdb : DB := { DB.empty with accounts := [c7facct], next_account_id := 2 }

/-- Liability ledger account of the C4 witness state. -/
def c4la : LedgerAccount :=
  { id := 1, code := "CUST-CHECKING-00001", name := "A L CHECKING",
    account_type := .LIABILITY, currency := "USD", is_active := true }

/-- Asset ledger account with no entries in the C4 witness state. -/
def c4lb : LedgerAccount :=
  { id := 2, code := "BANK-CASH-001", name := "Bank Cash Account",
    account_type := .ASSET, currency := "USD", is_active := true }

/-- Witness state for the balance claims: account 1 holds a 500.0000 credit
and a 200.0000 debit, account 2 holds nothing, account 99 does not exist. -/
def c4db : DB :=
  { DB.empty with
    ledger_accounts := [c4la, c4lb]
    next_ledger_account_id := 3
    ledger_entries :=
      [{ id := 1, transaction_id := 1, account_id := 1, entry_type := .CREDIT,
         amount := 5000000, currency := "USD", description := "dep", created_at := 1 },
       { id := 2, transaction_id := 2, account_id := 1, entry_type := .DEBIT,
         amount := 2000000, currency := "USD", description := "wd", created_at := 2 }]
    next_entry_id := 3 }

/-- End-to-end scenario for the C1 witness: two customers open accounts,
activate them, deposit, transfer, overdraw (rejected), withdraw, reverse
the deposit, and post one raw balanced entry pair. -/
def c1ops : List (Nat × Op) :=
  [(1, .createCustomer { first_name := "A", last_name := "L", email := "a@x" }),
   (2, .createCustomer { first_name := "B", last_name := "M", email := "b@x" }),
   (3, .openAccount { customer_id := 1, account_type := .CHECKING, currency := "USD" }),
   (4, .openAccount { customer_id := 2, account_type := .SAVINGS, currency := "USD" }),
   (5, .changeStatus 1 { new_status := .ACTIVE, reason := "kyc" }),
   (6, .changeStatus 2 { new_status := .ACTIVE, reason := "kyc" }),
   (7, .opDeposit { account_id := 1, amount := 5000000, currency := "USD", description := "cash in", idempotency_key := "d1" }),
   (8, .opTransfer { source_account_id := 1, destination_account_id := 2, amount := 2000000, currency := "USD", description := "move", idempotency_key := "t1" }),
   (9, .opWithdraw { account_id := 2, amount := 9000000, currency := "USD", description := "too much", idempotency_key := "w1" }),
   (10, .opWithdraw { account_id := 2, amount := 2000000, currency := "USD", description := "out", idempotency_key := "w2" }),
   (11, .opReverse 1 "r1"),
   (12, .postEntries { transaction_id := 77, currency := "USD", entries := [{ account_id := 3, entry_type := .DEBIT, amount := 12345, description := "raw" }, { account_id := 1, entry_type := .CREDIT, amount := 12345, description := "raw" }] })]

/-- Prior FAILED attempt stored under key k3, for the retry witness. -/
def c3txn : Transaction :=
  { id := 1, idempotency_key := "k3", transaction_type := .DEPOSIT, status := .FAILED,
    source_account_id := none, destination_account_id := some 1, amount := 100,
    currency := "USD", description := "failed attempt",
    reference_transaction_id := none, ledger_transaction_id := some 1,
    error_message := some "currency mismatch", completed_at := none }

/-- Witness state holding only the FAILED transaction under key k3. -/
def c3db : DB := { DB.empty with transactions := [c3txn], next_txn_id := 2, next_uuid := 2 }

/-- Customer ledger account of the C6 witness state. -/
def c6la : LedgerAccount :=
  { id := 1, code := "CUST-CHECKING-00001", name := "A L CHECKING",
    account_type := .LIABILITY, currency := "USD", is_active := true }

/-- Cash ledger account of the C6 witness state. -/
def c6cash : LedgerAccount :=
  { id := 2, code := "BANK-CASH-001", name := "Bank Cash Account",
    account_type := .ASSET, currency := "USD", is_active := true }

/-- Source customer account of the C6 witness state. -/
def c6acc : Account :=
  { id := 1, customer_id := 1, ledger_account_id := 1, account_type := .CHECKING,
    status := .ACTIVE, currency := "USD", opened_at := some 1, closed_at := none }

/-- Destination customer account of the C6 witness state. -/
def c6dacc : Account :=
  { id := 2, customer_id := 2, ledger_account_id := 3, account_type := .SAVINGS,
    status := .ACTIVE, currency := "USD", opened_at := some 1, closed_at := none }

/-- Witness state for the sufficient-balance rule: account 1 carries a
ledger balance of exactly 500.0000. -/
def c6db : DB :=
  { DB.empty with
    accounts := [c6acc, c6dacc]
    next_account_id := 3
    ledger_accounts := [c6la, c6cash]
    next_ledger_account_id := 3
    ledger_entries :=
      [{ id := 1, transaction_id := 1, account_id := 2, entry_type := .DEBIT,
         amount := 5000000, currency := "USD", description := "dep", created_at := 1 },
       { id := 2, transaction_id := 1, account_id := 1, entry_type := .CREDIT,
         amount := 5000000, currency := "USD", description := "dep", created_at := 1 }]
    next_entry_id := 3
    next_uuid := 2 }

/-- Exact-balance withdrawal request of the C6 witness. -/
def c6wreq : WithdrawalRequest :=
  { account_id := 1, amount := 5000000, currency := "USD",
    description := "all of it", idempotency_key := "w-c6" }

/-- Overdrawing transfer request of the C6 witness. -/
def c6treq : TransferRequest :=
  { source_account_id := 1, destination_account_id := 2, amount := 6000000,
    currency := "USD", description := "too much", idempotency_key := "t-c6" }

/-- Customer ledger account of the C5 witness state. -/
def c5la : LedgerAccount :=
  { id := 1, code := "CUST-CHECKING-00001", name := "A L CHECKING",
    account_type := .LIABILITY, currency := "USD", is_active := true }

/-- Cash ledger account of the C5 witness state. -/
def c5cash : LedgerAccount :=
  { id := 2, code := "BANK-CASH-001", name := "Bank Cash Account",
    account_type := .ASSET, currency := "USD", is_active := true }

/-- Completed deposit to be reversed in the C5 witness. -/
def c5T : Transaction :=
  { id := 1, idempotency_key := "d1", transaction_type := .DEPOSIT,
    status := .COMPLETED, source_account_id := none, destination_account_id := some 1,
    amount := 1000000, currency := "USD", description := "cash in",
    reference_transaction_id := none, ledger_transaction_id := some 1,
    error_message := none, completed_at := some 4 }

/-- FAILED transaction of the C5 witness, not reversible. -/
def c5T2 : Transaction :=
  { id := 2, idempotency_key := "x1", transaction_type := .WITHDRAWAL,
    status := .FAILED, source_account_id := some 1, destination_account_id := none,
    amount := 500, currency := "USD", description := "bad",
    reference_transaction_id := none, ledger_transaction_id := some 9,
    error_message := some "Insufficient balance", completed_at := none }

/-- Witness state for the reversal claims: one completed deposit with its
balanced entry pair, and one FAILED transaction. -/
def c5db : DB :=
  { DB.empty with
    ledger_accounts := [c5la, c5cash]
    next_ledger_account_id := 3
    ledger_entries :=
      [{ id := 1, transaction_id := 1, account_id := 2, entry_type := .DEBIT,
         amount := 1000000, currency := "USD", description := "cash in", created_at := 4 },
       { id := 2, transaction_id := 1, account_id := 1, entry_type := .CREDIT,
         amount := 1000000, currency := "USD", description := "cash in", created_at := 4 }]
    next_entry_id := 3
    transactions := [c5T, c5T2]
    next_txn_id := 3
    next_uuid := 2 }

/-- USD cash account already present in the C8 counterexample state. -/
def c8cash : LedgerAccount :=
  { id := 1, code := "BANK-CASH-001", name := "Bank Cash Account",
    account_type := .ASSET, currency := "USD", is_active := true }

/-- EUR customer ledger account of the C8 counterexample state. -/
def c8la : LedgerAccount :=
  { id := 2, code := "CUST-CHECKING-00001", name := "A L CHECKING",
    account_type := .LIABILITY, currency := "EUR", is_active := true }

/-- EUR customer account of the C8 counterexample state. -/
def c8acc : Account :=
  { id := 1, customer_id := 1, ledger_account_id := 2, account_type := .CHECKING,
    status := .ACTIVE, currency := "EUR", opened_at := some 1, closed_at := none }

/-- Counterexample state for the cash-currency claim: the cash account
exists in USD, the customer account is in EUR. -/
def c8db : DB :=
  { DB.empty with
    ledger_accounts := [c8cash, c8la]
    next_ledger_account_id := 3
    accounts := [c8acc]
    next_account_id := 2 }

/-- EUR deposit against the USD-cash state. -/
def c8req : DepositRequest :=
  { account_id := 1, amount := 100, currency := "EUR",
    description := "eur in", idempotency_key := "k8" }

/-- First-use state for the amended cash-currency claim: no cash account
row exists yet. -/
def c8adb : DB :=
  { DB.empty with
    ledger_accounts := [c8la]
    next_ledger_account_id := 3
    accounts := [c8acc]
    next_account_id := 2 }

/-! Theorems. -/

/-- C2: posting a transaction id that already has entries returns exactly
the stored entry set and leaves the state untouched; no validation of the
payload happens, since the conclusion holds for every request carrying
that transaction id. -/
theorem postEntries_idempotent (db : DB) (now : Nat) (req : PostEntriesRequest)
    (h : db.ledger_entries.any (fun e => e.transaction_id == req.transaction_id) = true) :
    post_entries db now req =
      .ok (db.ledger_entries.filter (fun e => e.transaction_id == req.transaction_id), db) := by
  unfold post_entries
  rw [h]
  simp

/-- Witness for C2: replaying transaction id 7 with an invalid payload
returns the stored entry set unchanged. -/
theorem postEntries_idempotent_witness :
    c2db.ledger_entries.any (fun e => e.transaction_id == c2req.transaction_id) = true ∧
    post_entries c2db 5 c2req = .ok ([c2entry], c2db) :=
  ⟨by decide, (postEntries_idempotent c2db 5 c2req (by decide)).trans rfl⟩

/-- C10: a transfer whose source equals its destination under an unused
idempotency key fails with the same-account error and changes nothing,
for every database state — in particular before any account lookup, so
also when the account does not exist, is inactive, or mismatches. -/
theorem transfer_sameAccount_precedence (db : DB) (now : Nat) (req : TransferRequest)
    (hkey : check_idempotency db req.idempotency_key = none)
    (hsame : req.source_account_id = req.destination_account_id) :
    transfer db now req = (.error .sameAccount, db) := by
  unfold transfer
  rw [hkey, hsame]
  simp

/-- Witness for C10: the self-transfer fails with the same-account error on
the empty database, whose account table is empty, so no account lookup can
have happened. -/
theorem transfer_sameAccount_precedence_witness :
    check_idempotency DB.empty "k-c10" = none ∧
    DB.empty.accounts = [] ∧
    transfer DB.empty 0
      { source_account_id := 42, destination_account_id := 42, amount := 100,
        currency := "USD", description := "self", idempotency_key := "k-c10" }
      = (.error .sameAccount, DB.empty) :=
  ⟨by decide, by decide,
    transfer_sameAccount_precedence DB.empty 0
      { source_account_id := 42, destination_account_id := 42, amount := 100,
        currency := "USD", description := "self", idempotency_key := "k-c10" }
      (by decide) (by decide)⟩



/-- Counterexample for C9: the query of `get_entries_by_account` orders by
creation time only, so on two entries with equal creation times both
relative orders satisfy its contract — the entry id breaks no tie, in
either direction, contrary to the claim. -/
theorem entriesByAccount_no_id_tiebreak :
    entriesByAccountSpec c9db 1 [c9e1, c9e2] ∧
    entriesByAccountSpec c9db 1 [c9e2, c9e1] ∧
    [c9e1, c9e2] ≠ [c9e2, c9e1] := by
  refine ⟨⟨?_, ?_⟩, ⟨?_, ?_⟩, ?_⟩ <;> decide

/-- C9 amended: `GetEntriesByAccount` returns exactly the account's
entries arranged newest first by creation time; the query carries no id
tie-breaker, so the order of entries with equal creation times is whatever
the store yields (the model resolves it as the stable table order). -/
theorem entriesByAccount_newest_first (db : DB) (i : Nat) :
    entriesByAccountSpec db i (get_entries_by_account db i) :=
  ⟨List.perm_insertionSort newestFirst _, List.sorted_insertionSort newestFirst _⟩



/-- Counterexample for C7: the first activation at time 10 records
`opened_at = 10`, but the FROZEN to ACTIVE re-entry at time 30 overwrites
it to 30 — `change_status` assigns `opened_at` on every entry into ACTIVE,
not only the first. -/
theorem opened_at_overwritten :
    (findAccount c7mid 1).map (fun a => a.opened_at) = some (some 10) ∧
    (findAccount c7run 1).map (fun a => a.opened_at) = some (some 30) ∧
    (10 : Nat) ≠ 30 := by
  refine ⟨?_, ?_, ?_⟩ <;> decide

/-- C7 amended: every accepted transition into ACTIVE — the first
activation and every FROZEN to ACTIVE re-entry alike — sets `opened_at` to
the current time, overwriting any previously recorded value. -/
theorem change_status_active_overwrites (db : DB) (now : Nat) (i : Nat)
    (req : AccountStatusUpdate) (a : Account)
    (hfind : findAccount db i = some a)
    (hcan : can_transition_to a.status req.new_status = true)
    (hactive : req.new_status = .ACTIVE) :
    ∃ a1 db1, change_status db now i req = .ok (a1, db1) ∧
      a1.opened_at = some now ∧ a1.status = .ACTIVE := by
  rw [hactive] at hcan
  unfold change_status
  rw [hfind]
  simp [hcan, hactive]



/-- Witness for the amended C7: re-activating the frozen account at time 30
overwrites the stored `opened_at = 10` with 30. -/
theorem change_status_active_overwrites_witness :
    ∃ a1 db1,
      change_status c7fdb 30 1 { new_status := .ACTIVE, reason := "ok" } = .ok (a1, db1) ∧
      a1.opened_at = some 30 ∧ a1.status = .ACTIVE :=
  change_status_active_overwrites c7fdb 30 1 { new_status := .ACTIVE, reason := "ok" }
    c7facct (by decide) (by decide) rfl

/-- Total of one direction distributes over appending entry lists. -/
theorem entriesTotal_append (l1 l2 : List LedgerEntry) (t : EntryType) :
    entriesTotal (l1 ++ l2) t = entriesTotal l1 t + entriesTotal l2 t := by
  simp [entriesTotal, List.filter_append]

/-- Debit total minus credit total of a batch equals the signed running sum
with the debit-positive orientation. -/
theorem entriesTotal_sub_debit (l : List LedgerEntry) :
    entriesTotal l .DEBIT - entriesTotal l .CREDIT
      = (l.map (fun e => if e.entry_type = .DEBIT then e.amount else -e.amount)).sum := by
  induction l with
  | nil => rfl
  | cons e l ih =>
    cases he : e.entry_type <;>
      simp [entriesTotal, List.filter_cons, he] at ih ⊢ <;>
      omega

/-- Credit total minus debit total of a batch equals the signed running sum
with the credit-positive orientation. -/
theorem entriesTotal_sub_credit (l : List LedgerEntry) :
    entriesTotal l .CREDIT - entriesTotal l .DEBIT
      = (l.map (fun e => if e.entry_type = .CREDIT then e.amount else -e.amount)).sum := by
  induction l with
  | nil => rfl
  | cons e l ih =>
    cases he : e.entry_type <;>
      simp [entriesTotal, List.filter_cons, he] at ih ⊢ <;>
      omega

/-- The two-aggregate balance computation of the source equals the
single signed running sum of the spec, for every account category. -/
theorem balance_eq_running (l : List LedgerEntry) (t : AccountType) :
    (if t = .ASSET ∨ t = .EXPENSE then
       entriesTotal l .DEBIT - entriesTotal l .CREDIT
     else
       entriesTotal l .CREDIT - entriesTotal l .DEBIT)
      = (l.map (signedAmount t)).sum := by
  by_cases h : t = .ASSET ∨ t = .EXPENSE
  · rw [if_pos h, entriesTotal_sub_debit]
    exact congrArg List.sum (List.map_congr_left (fun e he => by simp [signedAmount, h]))
  · rw [if_neg h, entriesTotal_sub_credit]
    exact congrArg List.sum (List.map_congr_left (fun e he => by simp [signedAmount, h]))

/-- C4: for an existing ledger account, `GetBalance` returns the running
sum over the whole entry log under the sign convention (debits minus
credits for ASSET and EXPENSE, credits minus debits otherwise); an account
with no entries yields exactly zero; a missing account id fails as not
found. -/
theorem get_balance_correct (db : DB) (i j : Nat) (a : LedgerAccount)
    (hfound : findLedgerAccount db i = some a)
    (hmissing : findLedgerAccount db j = none) :
    get_account_balance db i = .ok (runningBalance db i a.account_type) ∧
    (db.ledger_entries.filter (fun e => e.account_id == i) = [] →
      get_account_balance db i = .ok 0) ∧
    get_account_balance db j = .error .notFound := by
  have hmain : get_account_balance db i = .ok (runningBalance db i a.account_type) := by
    unfold get_account_balance runningBalance
    rw [hfound, ← balance_eq_running]
    by_cases h : a.account_type = .ASSET ∨ a.account_type = .EXPENSE <;> simp [h]
  refine ⟨hmain, ?_, ?_⟩
  · intro hempty
    rw [hmain]
    unfold runningBalance
    rw [hempty]
    rfl
  · unfold get_account_balance
    rw [hmissing]

/-- Witness for C4, applied twice: account 1 of the concrete state carries
a 500.0000 credit and a 200.0000 debit on a LIABILITY account, giving
300.0000; account 2 has no entries and yields exactly zero; account 99 is
missing. -/
theorem get_balance_correct_witness :
    (get_account_balance c4db 1 = .ok (runningBalance c4db 1 c4la.account_type) ∧
      get_account_balance c4db 99 = .error .notFound) ∧
    (get_account_balance c4db 2 = .ok 0) ∧
    runningBalance c4db 1 c4la.account_type = 3000000 := by
  have h1 := get_balance_correct c4db 1 99 c4la (by decide) (by decide)
  have h2 := get_balance_correct c4db 2 99 c4lb (by decide) (by decide)
  exact ⟨⟨h1.1, h1.2.2⟩, h2.2.1 (by decide), by decide⟩

/-- A database with the same entry log as a balanced one is balanced. -/
theorem balanced_of_entries (db1 db2 : DB)
    (he : db1.ledger_entries = db2.ledger_entries) (h : balancedLedger db2) :
    balancedLedger db1 := by
  unfold balancedLedger totalDebits totalCredits at *
  rw [he]
  exact h

/-- The rows inserted by the posting loop total, in each direction,
exactly what the requested entries total. -/
theorem mkEntries_total (s now txn : Nat) (cur : String)
    (es : List LedgerEntryCreate) (t : EntryType) :
    entriesTotal (mkEntries s now txn cur es) t = requestTotal es t := by
  induction es generalizing s with
  | nil => rfl
  | cons e es ih =>
    by_cases h : e.entry_type == t <;>
      simp [mkEntries, entriesTotal, requestTotal, List.filter_cons, h] at ih ⊢ <;>
      simpa [entriesTotal, requestTotal] using ih s.succ

/-- Case analysis on a successful `post_entries`: either the transaction id
already existed and the state is untouched, or the state grew by the
freshly created rows of a request whose debits equal its credits. -/
theorem post_entries_ok_state (db : DB) (now : Nat) (req : PostEntriesRequest)
    (r : List LedgerEntry) (db1 : DB)
    (h : post_entries db now req = .ok (r, db1)) :
    db1 = db ∨
    (db1 = { db with
        ledger_entries := db.ledger_entries
          ++ mkEntries db.next_entry_id now req.transaction_id req.currency req.entries
        next_entry_id := db.next_entry_id + req.entries.length } ∧
     requestTotal req.entries .DEBIT = requestTotal req.entries .CREDIT) := by
  unfold post_entries at h
  split at h
  · left
    simp only [Except.ok.injEq, Prod.mk.injEq] at h
    exact h.2.symm
  · dsimp only at h
    split at h
    · simp at h
    · split at h
      · simp at h
      · split at h
        · simp at h
        · split at h
          · simp at h
          · rename_i hbal
            right
            simp only [Except.ok.injEq, Prod.mk.injEq] at h
            exact ⟨h.2.symm, not_ne_iff.mp hbal⟩

/-- A successful posting preserves the global double-entry invariant. -/
theorem post_entries_balanced (db : DB) (now : Nat) (req : PostEntriesRequest)
    (r : List LedgerEntry) (db1 : DB) (h : post_entries db now req = .ok (r, db1))
    (hb : balancedLedger db) : balancedLedger db1 := by
  rcases post_entries_ok_state db now req r db1 h with h1 | ⟨h1, h2⟩
  · rw [h1]; exact hb
  · unfold balancedLedger totalDebits totalCredits at *
    rw [h1]
    dsimp only
    rw [entriesTotal_append, entriesTotal_append, mkEntries_total, mkEntries_total,
      hb, h2]

/-- Ledger-account creation never touches the entry or transaction logs. -/
theorem create_ledger_account_state (db : DB) (req : LedgerAccountCreate)
    (a : LedgerAccount) (db1 : DB) (h : create_ledger_account db req = .ok (a, db1)) :
    db1.ledger_entries = db.ledger_entries ∧ db1.transactions = db.transactions ∧
    db1.next_txn_id = db.next_txn_id ∧ db1.next_uuid = db.next_uuid ∧
    db1.next_entry_id = db.next_entry_id := by
  unfold create_ledger_account at h
  split at h
  · simp at h
  · simp only [Except.ok.injEq, Prod.mk.injEq] at h
    rw [← h.2]
    exact ⟨rfl, rfl, rfl, rfl, rfl⟩

/-- Cash-account resolution never touches the entry or transaction logs. -/
theorem get_or_create_state (db : DB) (cur : String) (cash : LedgerAccount) (db1 : DB)
    (h : get_or_create_cash_account db cur = .ok (cash, db1)) :
    db1.ledger_entries = db.ledger_entries ∧ db1.transactions = db.transactions ∧
    db1.next_txn_id = db.next_txn_id ∧ db1.next_uuid = db.next_uuid ∧
    db1.next_entry_id = db.next_entry_id := by
  unfold get_or_create_cash_account at h
  split at h
  · simp only [Except.ok.injEq, Prod.mk.injEq] at h
    rw [← h.2]
    exact ⟨rfl, rfl, rfl, rfl, rfl⟩
  · exact create_ledger_account_state db _ cash db1 h

/-- Customer creation never touches the entry or transaction logs. -/
theorem create_customer_state (db : DB) (req : CustomerCreate)
    (c : Customer) (db1 : DB) (h : create_customer db req = .ok (c, db1)) :
    db1.ledger_entries = db.ledger_entries ∧ db1.transactions = db.transactions ∧
    db1.next_txn_id = db.next_txn_id := by
  unfold create_customer at h
  split at h
  · simp at h
  · simp only [Except.ok.injEq, Prod.mk.injEq] at h
    rw [← h.2]
    exact ⟨rfl, rfl, rfl⟩

/-- Opening a customer account never touches the entry or transaction
logs. -/
theorem open_account_state (db : DB) (req : AccountOpen)
    (a : Account) (db1 : DB) (h : open_account db req = .ok (a, db1)) :
    db1.ledger_entries = db.ledger_entries ∧ db1.transactions = db.transactions ∧
    db1.next_txn_id = db.next_txn_id := by
  unfold open_account at h
  split at h
  · simp at h
  · split at h
    · simp at h
    · split at h
      · simp at h
      · rename_i la db2 hla
        simp only [Except.ok.injEq, Prod.mk.injEq] at h
        have hs := create_ledger_account_state db _ la db2 hla
        rw [← h.2]
        exact ⟨hs.1, hs.2.1, hs.2.2.1⟩

/-- A status change never touches the entry or transaction logs. -/
theorem change_status_state (db : DB) (now : Nat) (i : Nat)
    (req : AccountStatusUpdate) (a : Account) (db1 : DB)
    (h : change_status db now i req = .ok (a, db1)) :
    db1.ledger_entries = db.ledger_entries ∧ db1.transactions = db.transactions ∧
    db1.next_txn_id = db.next_txn_id := by
  unfold change_status at h
  split at h
  · simp at h
  · split at h
    · simp at h
    · dsimp only at h
      simp only [Except.ok.injEq, Prod.mk.injEq] at h
      rw [← h.2]
      unfold updateAccount deactivateLedgerAccount
      split <;> exact ⟨rfl, rfl, rfl⟩

/-- A deposit preserves the global double-entry invariant, whether it
completes or fails. -/
theorem deposit_balanced (db : DB) (now : Nat) (req : DepositRequest)
    (h : balancedLedger db) : balancedLedger (deposit db now req).2 := by
  unfold deposit
  split
  · exact h
  · split
    · exact h
    · split
      · exact h
      · rename_i cash db1 heq
        have hstate := get_or_create_state db req.currency cash db1 heq
        dsimp only
        split
        · rename_i rr db4 hpost
          exact balanced_of_entries _ db4 rfl
            (post_entries_balanced _ now _ rr db4 hpost
              (balanced_of_entries _ db hstate.1 h))
        · exact balanced_of_entries _ db hstate.1 h

/-- A withdrawal preserves the global double-entry invariant. -/
theorem withdraw_balanced (db : DB) (now : Nat) (req : WithdrawalRequest)
    (h : balancedLedger db) : balancedLedger (withdraw db now req).2 := by
  unfold withdraw
  split
  · exact h
  · split
    · exact h
    · split
      · exact h
      · rename_i cash db1 heq
        have hstate := get_or_create_state db req.currency cash db1 heq
        split
        · exact balanced_of_entries _ db hstate.1 h
        · split
          · exact balanced_of_entries _ db hstate.1 h
          · dsimp only
            split
            · rename_i rr db4 hpost
              exact balanced_of_entries _ db4 rfl
                (post_entries_balanced _ now _ rr db4 hpost
                  (balanced_of_entries _ db hstate.1 h))
            · exact balanced_of_entries _ db hstate.1 h

/-- A transfer preserves the global double-entry invariant. -/
theorem transfer_balanced (db : DB) (now : Nat) (req : TransferRequest)
    (h : balancedLedger db) : balancedLedger (transfer db now req).2 := by
  unfold transfer
  split
  · exact h
  · split
    · exact h
    · split
      · exact h
      · split
        · exact h
        · split
          · exact h
          · split
            · exact h
            · dsimp only
              split
              · rename_i rr db4 hpost
                exact balanced_of_entries _ db4 rfl
                  (post_entries_balanced _ now _ rr db4 hpost (balanced_of_entries _ db rfl h))
              · exact balanced_of_entries _ db rfl h

/-- A reversal preserves the global double-entry invariant. -/
theorem reverse_balanced (db : DB) (now : Nat) (i : Nat) (key : String)
    (h : balancedLedger db) : balancedLedger (reverse db now i key).2 := by
  unfold reverse
  split
  · exact h
  · split
    · exact h
    · split
      · exact h
      · dsimp only
        split
        · rename_i rr db4 hpost
          exact balanced_of_entries _ db4 rfl
            (post_entries_balanced _ now _ rr db4 hpost (balanced_of_entries _ db rfl h))
        · exact balanced_of_entries _ db rfl h

/-- Every single operation preserves the global double-entry invariant. -/
theorem applyOp_balanced (db : DB) (now : Nat) (op : Op) (h : balancedLedger db) :
    balancedLedger (applyOp db now op) := by
  cases op with
  | createLedgerAccount req =>
    simp only [applyOp]
    split
    · rename_i a db1 heq
      exact balanced_of_entries db1 db (create_ledger_account_state db req a db1 heq).1 h
    · exact h
  | postEntries req =>
    simp only [applyOp]
    split
    · rename_i r db1 heq
      exact post_entries_balanced db now req r db1 heq h
    · exact h
  | createCustomer req =>
    simp only [applyOp]
    split
    · rename_i c db1 heq
      exact balanced_of_entries db1 db (create_customer_state db req c db1 heq).1 h
    · exact h
  | openAccount req =>
    simp only [applyOp]
    split
    · rename_i a db1 heq
      exact balanced_of_entries db1 db (open_account_state db req a db1 heq).1 h
    · exact h
  | changeStatus i req =>
    simp only [applyOp]
    split
    · rename_i a db1 heq
      exact balanced_of_entries db1 db (change_status_state db now i req a db1 heq).1 h
    · exact h
  | opDeposit req => exact deposit_balanced db now req h
  | opWithdraw req => exact withdraw_balanced db now req h
  | opTransfer req => exact transfer_balanced db now req h
  | opReverse i key => exact reverse_balanced db now i key h

/-- Every run of operations preserves the global double-entry invariant. -/
theorem runOps_balanced (ops : List (Nat × Op)) (db : DB) (h : balancedLedger db) :
    balancedLedger (runOps db ops) := by
  induction ops generalizing db with
  | nil => exact h
  | cons p ops ih => exact ih (applyOp db p.1 p.2) (applyOp_balanced db p.1 p.2 h)

/-- C1: starting from any globally balanced state — the empty ledger in
particular — every sequence of operations the system processes (raw entry
postings, deposits, withdrawals, transfers, reversals, together with the
account-management operations), whether each is accepted or rejected,
leaves the sum of all DEBIT amounts of the `ledger_entries` table equal to
the sum of all CREDIT amounts. -/
theorem ledger_always_balanced (db : DB) (ops : List (Nat × Op))
    (h : balancedLedger db) : balancedLedger (runOps db ops) :=
  runOps_balanced ops db h

/-- A transactions table with the same rows and counter as a well-formed
one is well-formed. -/
theorem good_of_txns (db1 db2 : DB) (ht : db1.transactions = db2.transactions)
    (hn : db1.next_txn_id = db2.next_txn_id) (h : goodDB db2) : goodDB db1 := by
  unfold goodDB at *
  rw [ht, hn]
  exact h

/-- Appending a row with the fresh autoincrement id and an unused key
keeps the transactions table well-formed. -/
theorem goodTxns_append (l : List Transaction) (next : Nat) (t : Transaction)
    (hg : goodTxns l next) (hid : t.id = next)
    (hkeys : ∀ u ∈ l, u.idempotency_key ≠ t.idempotency_key) :
    goodTxns (l ++ [t]) (next + 1) := by
  obtain ⟨hb, hnid, hnkey⟩ := hg
  refine ⟨?_, ?_, ?_⟩
  · intro u hu
    rcases List.mem_append.1 hu with h | h
    · exact Nat.lt_succ_of_lt (hb u h)
    · rcases List.mem_singleton.1 h with rfl
      rw [hid]
      exact Nat.lt_succ_self next
  · rw [List.map_append, List.nodup_append]
    refine ⟨hnid, List.nodup_singleton _, ?_⟩
    intro x hx hxt
    simp only [List.map_cons, List.map_nil, List.mem_singleton] at hxt
    subst hxt
    obtain ⟨u, hu, hux⟩ := List.mem_map.1 hx
    have hlt := hb u hu
    rw [hux, hid] at hlt
    exact absurd hlt (Nat.lt_irrefl _)
  · rw [List.map_append, List.nodup_append]
    refine ⟨hnkey, List.nodup_singleton _, ?_⟩
    intro x hx hxt
    simp only [List.map_cons, List.map_nil, List.mem_singleton] at hxt
    subst hxt
    obtain ⟨u, hu, hux⟩ := List.mem_map.1 hx
    exact hkeys u hu hux

/-- An in-place row update that preserves the row's id and key keeps the
transactions table well-formed. -/
theorem goodTxns_map_update (l : List Transaction) (next i : Nat) (t : Transaction)
    (hg : goodTxns l next)
    (hsame : ∀ u ∈ l, u.id = i → u.id = t.id ∧ u.idempotency_key = t.idempotency_key) :
    goodTxns (l.map (fun x => if x.id == i then t else x)) next := by
  obtain ⟨hb, hnid, hnkey⟩ := hg
  have hids : (l.map (fun x => if x.id == i then t else x)).map (fun u => u.id)
      = l.map (fun u => u.id) := by
    rw [List.map_map]
    apply List.map_congr_left
    intro u hu
    by_cases h : u.id = i
    · simp only [Function.comp_apply, h, beq_self_eq_true, if_true]
      exact ((hsame u hu h).1.symm).trans h
    · simp only [Function.comp_apply]
      rw [if_neg (by simpa using h)]
  have hkeys : (l.map (fun x => if x.id == i then t else x)).map
        (fun u => u.idempotency_key)
      = l.map (fun u => u.idempotency_key) := by
    rw [List.map_map]
    apply List.map_congr_left
    intro u hu
    by_cases h : u.id = i
    · simp only [Function.comp_apply, h, beq_self_eq_true, if_true]
      exact ((hsame u hu h).2).symm
    · simp only [Function.comp_apply]
      rw [if_neg (by simpa using h)]
  refine ⟨?_, ?_, ?_⟩
  · intro v hv
    obtain ⟨u, hu, huv⟩ := List.mem_map.1 hv
    by_cases h : u.id = i
    · rw [← huv, if_pos (by simpa using h), ← (hsame u hu h).1]
      exact hb u hu
    · rw [← huv, if_neg (by simpa using h)]
      exact hb u hu
  · rw [hids]
    exact hnid
  · rw [hkeys]
    exact hnkey

/-- Inserting a fresh row and then rewriting it in place (the
PROCESSING-then-final-status pattern of the orchestrator) keeps the
transactions table well-formed. -/
theorem goodTxns_insert_update (l : List Transaction) (next i : Nat)
    (txn txn1 : Transaction) (hg : goodTxns l next) (hid : txn.id = next)
    (hi : i = txn.id)
    (hkeys : ∀ u ∈ l, u.idempotency_key ≠ txn.idempotency_key)
    (hid1 : txn1.id = txn.id) (hkey1 : txn1.idempotency_key = txn.idempotency_key) :
    goodTxns ((l ++ [txn]).map (fun x => if x.id == i then txn1 else x))
      (next + 1) := by
  subst hi
  apply goodTxns_map_update
  · exact goodTxns_append l next txn hg hid hkeys
  · intro u hu hui
    rcases List.mem_append.1 hu with h | h
    · exact absurd (hui.trans hid) (Nat.ne_of_lt (hg.1 u h))
    · rcases List.mem_singleton.1 h with rfl
      exact ⟨hid1.symm, hkey1.symm⟩

/-- If the stored keys hold no duplicates, the idempotency probe finds
exactly the stored row carrying the probed key. -/
theorem find_eq_of_mem_nodup (l : List Transaction) (t : Transaction) (k : String)
    (hnodup : (l.map (fun u => u.idempotency_key)).Nodup)
    (ht : t ∈ l) (hk : t.idempotency_key = k) :
    l.find? (fun u => u.idempotency_key == k) = some t := by
  induction l with
  | nil => cases ht
  | cons a l ih =>
    rw [List.map_cons, List.nodup_cons] at hnodup
    rw [List.find?_cons]
    by_cases hp : (a.idempotency_key == k) = true
    · rw [hp]
      rcases List.mem_cons.1 ht with rfl | htl
      · rfl
      · exfalso
        apply hnodup.1
        rw [show a.idempotency_key = k from by simpa using hp, ← hk]
        exact List.mem_map.2 ⟨t, htl, rfl⟩
    · rw [Bool.not_eq_true] at hp
      rw [hp]
      rcases List.mem_cons.1 ht with rfl | htl
      · exact absurd hk (by simpa using hp)
      · exact ih hnodup.2 htl

/-- The idempotency probe of the orchestrator returns the stored row of
the probed key. -/
theorem check_idempotency_some (db : DB) (t : Transaction) (k : String)
    (hg : goodDB db) (ht : t ∈ db.transactions) (hk : t.idempotency_key = k) :
    check_idempotency db k = some t :=
  find_eq_of_mem_nodup db.transactions t k hg.2.2 ht hk

/-- A miss of the idempotency probe means no stored row carries the key. -/
theorem check_idempotency_none (db : DB) (k : String)
    (h : check_idempotency db k = none) :
    ∀ u ∈ db.transactions, u.idempotency_key ≠ k := by
  intro u hu
  have := List.find?_eq_none.1 h u hu
  simpa using this

/-- A successful posting never touches the business tables. -/
theorem post_entries_txns (db : DB) (now : Nat) (req : PostEntriesRequest)
    (r : List LedgerEntry) (db1 : DB) (h : post_entries db now req = .ok (r, db1)) :
    db1.transactions = db.transactions ∧ db1.next_txn_id = db.next_txn_id ∧
    db1.ledger_accounts = db.ledger_accounts ∧ db1.accounts = db.accounts := by
  rcases post_entries_ok_state db now req r db1 h with h1 | ⟨h1, h2⟩ <;>
    rw [h1] <;> exact ⟨rfl, rfl, rfl, rfl⟩

/-- A deposit keeps the transactions table well-formed. -/
theorem deposit_good (db : DB) (now : Nat) (req : DepositRequest)
    (h : goodDB db) : goodDB (deposit db now req).2 := by
  unfold deposit
  split
  · exact h
  · rename_i hnone
    split
    · exact h
    · split
      · exact h
      · rename_i cash db1 heq
        have hstate := get_or_create_state db req.currency cash db1 heq
        have hg1 : goodTxns db1.transactions db1.next_txn_id := by
          rw [hstate.2.1, hstate.2.2.1]; exact h
        have hkeys1 : ∀ u ∈ db1.transactions, u.idempotency_key ≠ req.idempotency_key := by
          rw [hstate.2.1]
          exact check_idempotency_none db req.idempotency_key hnone
        dsimp only
        split
        · rename_i rr db4 hpost
          have hp := post_entries_txns _ now _ rr db4 hpost
          unfold goodDB updateTransaction
          dsimp only
          rw [hp.1, hp.2.1]
          dsimp only
          apply goodTxns_insert_update
          · exact hg1
          · rfl
          · rfl
          · exact hkeys1
          · rfl
          · rfl
        · unfold goodDB updateTransaction
          dsimp only
          apply goodTxns_insert_update
          · exact hg1
          · rfl
          · rfl
          · exact hkeys1
          · rfl
          · rfl

/-- A withdrawal keeps the transactions table well-formed. -/
theorem withdraw_good (db : DB) (now : Nat) (req : WithdrawalRequest)
    (h : goodDB db) : goodDB (withdraw db now req).2 := by
  unfold withdraw
  split
  · exact h
  · rename_i hnone
    split
    · exact h
    · split
      · exact h
      · rename_i cash db1 heq
        have hstate := get_or_create_state db req.currency cash db1 heq
        have hg1 : goodTxns db1.transactions db1.next_txn_id := by
          rw [hstate.2.1, hstate.2.2.1]; exact h
        have hkeys1 : ∀ u ∈ db1.transactions, u.idempotency_key ≠ req.idempotency_key := by
          rw [hstate.2.1]
          exact check_idempotency_none db req.idempotency_key hnone
        split
        · exact good_of_txns _ db hstate.2.1 hstate.2.2.1 h
        · split
          · exact good_of_txns _ db hstate.2.1 hstate.2.2.1 h
          · dsimp only
            split
            · rename_i rr db4 hpost
              have hp := post_entries_txns _ now _ rr db4 hpost
              unfold goodDB updateTransaction
              dsimp only
              rw [hp.1, hp.2.1]
              dsimp only
              apply goodTxns_insert_update
              · exact hg1
              · rfl
              · rfl
              · exact hkeys1
              · rfl
              · rfl
            · unfold goodDB updateTransaction
              dsimp only
              apply goodTxns_insert_update
              · exact hg1
              · rfl
              · rfl
              · exact hkeys1
              · rfl
              · rfl

/-- A transfer keeps the transactions table well-formed. -/
theorem transfer_good (db : DB) (now : Nat) (req : TransferRequest)
    (h : goodDB db) : goodDB (transfer db now req).2 := by
  unfold transfer
  split
  · exact h
  · rename_i hnone
    have hkeys1 : ∀ u ∈ db.transactions, u.idempotency_key ≠ req.idempotency_key :=
      check_idempotency_none db req.idempotency_key hnone
    split
    · exact h
    · split
      · exact h
      · split
        · exact h
        · split
          · exact h
          · split
            · exact h
            · dsimp only
              split
              · rename_i rr db4 hpost
                have hp := post_entries_txns _ now _ rr db4 hpost
                unfold goodDB updateTransaction
                dsimp only
                rw [hp.1, hp.2.1]
                dsimp only
                apply goodTxns_insert_update
                · exact h
                · rfl
                · rfl
                · exact hkeys1
                · rfl
                · rfl
              · unfold goodDB updateTransaction
                dsimp only
                apply goodTxns_insert_update
                · exact h
                · rfl
                · rfl
                · exact hkeys1
                · rfl
                · rfl

/-- A reversal keeps the transactions table well-formed: it appends the
fresh REVERSAL row and rewrites, in place, the appended row and the
original, neither touching ids nor keys. -/
theorem reverse_good (db : DB) (now : Nat) (tid : Nat) (key : String)
    (h : goodDB db) : goodDB (reverse db now tid key).2 := by
  unfold reverse
  split
  · exact h
  · rename_i hnone
    have hkeys1 : ∀ u ∈ db.transactions, u.idempotency_key ≠ key :=
      check_idempotency_none db key hnone
    split
    · exact h
    · rename_i original hfind
      have horig : original ∈ db.transactions := List.mem_of_find?_eq_some hfind
      have horiglt : original.id < db.next_txn_id := h.1 original horig
      split
      · exact h
      · dsimp only
        split
        · rename_i rr db4 hpost
          have hp := post_entries_txns _ now _ rr db4 hpost
          unfold goodDB updateTransaction
          dsimp only
          rw [hp.1, hp.2.1]
          apply goodTxns_map_update
          · apply goodTxns_map_update
            · exact goodTxns_append db.transactions db.next_txn_id _ h rfl hkeys1
            · intro u hu hui
              rcases List.mem_append.1 hu with hin | hin
              · rw [List.inj_on_of_nodup_map h.2.1 hin horig hui]
                exact ⟨rfl, rfl⟩
              · rcases List.mem_singleton.1 hin with rfl
                exact absurd (hui.symm) (Nat.ne_of_lt horiglt)
          · intro v hv hvi
            obtain ⟨u, hu, rfl⟩ := List.mem_map.1 hv
            rcases List.mem_append.1 hu with hin | hin
            · by_cases hc : (u.id == original.id) = true
              · rw [if_pos hc] at hvi ⊢
                exact absurd hvi (Nat.ne_of_lt horiglt)
              · rw [if_neg (by simpa using hc)] at hvi ⊢
                exact absurd hvi (Nat.ne_of_lt (h.1 u hin))
            · rcases List.mem_singleton.1 hin with rfl
              rw [if_neg (by simpa using Nat.ne_of_lt horiglt |>.symm)] at hvi ⊢
              exact ⟨rfl, rfl⟩
        · unfold goodDB updateTransaction
          dsimp only
          apply goodTxns_insert_update
          · exact h
          · rfl
          · rfl
          · exact hkeys1
          · rfl
          · rfl

/-- Every single operation keeps the transactions table well-formed. -/
theorem applyOp_good (db : DB) (now : Nat) (op : Op) (h : goodDB db) :
    goodDB (applyOp db now op) := by
  cases op with
  | createLedgerAccount req =>
    simp only [applyOp]
    split
    · rename_i a db1 heq
      have hs := create_ledger_account_state db req a db1 heq
      exact good_of_txns db1 db hs.2.1 hs.2.2.1 h
    · exact h
  | postEntries req =>
    simp only [applyOp]
    split
    · rename_i r db1 heq
      have hs := post_entries_txns db now req r db1 heq
      exact good_of_txns db1 db hs.1 hs.2.1 h
    · exact h
  | createCustomer req =>
    simp only [applyOp]
    split
    · rename_i c db1 heq
      have hs := create_customer_state db req c db1 heq
      exact good_of_txns db1 db hs.2.1 hs.2.2 h
    · exact h
  | openAccount req =>
    simp only [applyOp]
    split
    · rename_i a db1 heq
      have hs := open_account_state db req a db1 heq
      exact good_of_txns db1 db hs.2.1 hs.2.2 h
    · exact h
  | changeStatus i req =>
    simp only [applyOp]
    split
    · rename_i a db1 heq
      have hs := change_status_state db now i req a db1 heq
      exact good_of_txns db1 db hs.2.1 hs.2.2 h
    · exact h
  | opDeposit req => exact deposit_good db now req h
  | opWithdraw req => exact withdraw_good db now req h
  | opTransfer req => exact transfer_good db now req h
  | opReverse i key => exact reverse_good db now i key h

/-- Every run of operations keeps the transactions table well-formed. -/
theorem runOps_good (ops : List (Nat × Op)) (db : DB) (h : goodDB db) :
    goodDB (runOps db ops) := by
  induction ops generalizing db with
  | nil => exact h
  | cons p ops ih => exact ih (applyOp db p.1 p.2) (applyOp_good db p.1 p.2 h)

/-- C3: from any well-formed start — the empty state in particular — every
run keeps the idempotency keys of the `transactions` table duplicate-free,
so at most one row ever carries a key; and a deposit, withdrawal, transfer
or reversal retried under a stored key — also one whose first attempt ended
FAILED — returns exactly the stored row and writes nothing. -/
theorem business_key_once
    (db0 : DB) (ops : List (Nat × Op)) (h0 : goodDB db0)
    (db : DB) (hg : goodDB db) (t : Transaction) (ht : t ∈ db.transactions)
    (k : String) (hk : t.idempotency_key = k) (now tid : Nat)
    (dreq : DepositRequest) (hd : dreq.idempotency_key = k)
    (wreq : WithdrawalRequest) (hw : wreq.idempotency_key = k)
    (treq : TransferRequest) (htr : treq.idempotency_key = k) :
    goodDB (runOps db0 ops) ∧
    deposit db now dreq = (.ok t, db) ∧
    withdraw db now wreq = (.ok t, db) ∧
    transfer db now treq = (.ok t, db) ∧
    reverse db now tid k = (.ok t, db) := by
  have hc : check_idempotency db k = some t := check_idempotency_some db t k hg ht hk
  refine ⟨runOps_good ops db0 h0, ?_, ?_, ?_, ?_⟩
  · unfold deposit
    rw [hd, hc]
  · unfold withdraw
    rw [hw, hc]
  · unfold transfer
    rw [htr, hc]
  · unfold reverse
    rw [hc]

/-- Witness for C3: the stored attempt under key k3 ended FAILED; retrying
any of the four operations under k3 returns that same row, ids and all,
and leaves the state unchanged; key uniqueness holds along a run from the
empty state. -/
theorem business_key_once_witness :
    goodDB (runOps DB.empty c1ops) ∧
    deposit c3db 9 { account_id := 1, amount := 100, currency := "USD", description := "retry", idempotency_key := "k3" } = (.ok c3txn, c3db) ∧
    withdraw c3db 9 { account_id := 1, amount := 100, currency := "USD", description := "retry", idempotency_key := "k3" } = (.ok c3txn, c3db) ∧
    transfer c3db 9 { source_account_id := 1, destination_account_id := 2, amount := 100, currency := "USD", description := "retry", idempotency_key := "k3" } = (.ok c3txn, c3db) ∧
    reverse c3db 9 1 "k3" = (.ok c3txn, c3db) :=
  business_key_once DB.empty c1ops (by decide) c3db (by decide) c3txn (by decide)
    "k3" rfl 9 1
    { account_id := 1, amount := 100, currency := "USD", description := "retry", idempotency_key := "k3" } rfl
    { account_id := 1, amount := 100, currency := "USD", description := "retry", idempotency_key := "k3" } rfl
    { source_account_id := 1, destination_account_id := 2, amount := 100, currency := "USD", description := "retry", idempotency_key := "k3" } rfl

/-- Witness for C1: the empty ledger is balanced, and the concrete
end-to-end scenario (accounts, deposits, transfer, rejected overdraw,
withdrawal, reversal, raw posting) leaves the ledger balanced. -/
theorem ledger_always_balanced_witness :
    balancedLedger DB.empty ∧ balancedLedger (runOps DB.empty c1ops) :=
  ⟨by decide, ledger_always_balanced DB.empty c1ops (by decide)⟩

/-- Posting validation only reads the chart of accounts, so two states
sharing it validate alike. -/
theorem accountOkB_eq (db1 db2 : DB) (cur : String) (i : Nat)
    (h : db1.ledger_accounts = db2.ledger_accounts) :
    accountOkB db1 cur i = accountOkB db2 cur i := by
  unfold accountOkB findLedgerAccount
  rw [h]

/-- A posting whose referenced accounts all validate and whose request
balances never raises. -/
theorem post_entries_never_errors (db : DB) (now : Nat) (req : PostEntriesRequest)
    (e : Err) (h : post_entries db now req = .error e)
    (hacct : ∀ i ∈ req.entries.map (fun x => x.account_id),
      accountOkB db req.currency i = true)
    (hbal : requestTotal req.entries .DEBIT = requestTotal req.entries .CREDIT) :
    False := by
  unfold post_entries at h
  split at h
  · simp at h
  · dsimp only at h
    split at h
    · rename_i hany
      obtain ⟨i, hi, hnone⟩ := List.any_eq_true.1 hany
      have hok := hacct i (List.mem_dedup.1 hi)
      unfold accountOkB at hok
      cases hf : findLedgerAccount db i with
      | none => rw [hf] at hok; simp at hok
      | some a => rw [hf] at hnone; simp at hnone
    · split at h
      · rename_i hany
        obtain ⟨i, hi, hbad⟩ := List.any_eq_true.1 hany
        have hok := hacct i (List.mem_dedup.1 hi)
        unfold accountOkB at hok
        cases hf : findLedgerAccount db i with
        | none => rw [hf] at hok; simp at hok
        | some a =>
          rw [hf] at hok hbad
          simp at hok hbad
          exact absurd hok.1 (by simp [hbad])
      · split at h
        · rename_i hany
          obtain ⟨i, hi, hbad⟩ := List.any_eq_true.1 hany
          have hok := hacct i (List.mem_dedup.1 hi)
          unfold accountOkB at hok
          cases hf : findLedgerAccount db i with
          | none => rw [hf] at hok; simp at hok
          | some a =>
            rw [hf] at hok hbad
            simp at hok hbad
            exact absurd hok.2 hbad
        · split at h
          · rename_i hne
            exact absurd hbal hne
          · simp at h

/-- The raise sites of a posting are the four ledger validations; no other
error kind can come back. -/
theorem post_entries_error_kind (db : DB) (now : Nat) (req : PostEntriesRequest)
    (e : Err) (h : post_entries db now req = .error e) :
    e = .notFound ∨ e = .accountInactive ∨ e = .currencyMismatch ∨ e = .unbalanced := by
  unfold post_entries at h
  split at h
  · simp at h
  · dsimp only at h
    split at h
    · simp only [Except.error.injEq] at h
      exact Or.inl h.symm
    · split at h
      · simp only [Except.error.injEq] at h
        exact Or.inr (Or.inl h.symm)
      · split at h
        · simp only [Except.error.injEq] at h
          exact Or.inr (Or.inr (Or.inl h.symm))
        · split at h
          · simp only [Except.error.injEq] at h
            exact Or.inr (Or.inr (Or.inr h.symm))
          · simp at h

/-- C6: with a fresh idempotency key, an ACTIVE matching-currency source
account, and validating ledger and cash accounts, a withdrawal fails with
InsufficientFunds exactly when the requested amount strictly exceeds the
ledger-derived balance at the check; on that failure the state is returned
fully unchanged — in particular no transaction row and no ledger entries —
and withdrawing the exact balance completes. A transfer from the same
source obeys the same exceeds-balance rule with the same no-write
behaviour. -/
theorem insufficient_funds_rule
    (db : DB) (now : Nat) (wreq : WithdrawalRequest) (treq : TransferRequest)
    (acc dacc : Account) (cash : LedgerAccount) (bal : Int)
    (hk : check_idempotency db wreq.idempotency_key = none)
    (hacc : findAccount db wreq.account_id = some acc)
    (hst : acc.status = .ACTIVE)
    (hcur : acc.currency = wreq.currency)
    (hcash : db.ledger_accounts.find? (fun a => a.code == CASH_ACCOUNT_CODE) = some cash)
    (hcashok : accountOkB db wreq.currency cash.id = true)
    (hlaok : accountOkB db wreq.currency acc.ledger_account_id = true)
    (hbal : get_account_balance db acc.ledger_account_id = .ok bal)
    (hk2 : check_idempotency db treq.idempotency_key = none)
    (hdiff : (treq.source_account_id == treq.destination_account_id) = false)
    (hsrc : treq.source_account_id = wreq.account_id)
    (htcur : treq.currency = wreq.currency)
    (hdacc : findAccount db treq.destination_account_id = some dacc)
    (hdst : dacc.status = .ACTIVE)
    (hdcur : dacc.currency = wreq.currency) :
    ((withdraw db now wreq).1 = .error .insufficientFunds ↔ bal < wreq.amount) ∧
    (bal < wreq.amount → withdraw db now wreq = (.error .insufficientFunds, db)) ∧
    (wreq.amount = bal →
      ∃ t1, (withdraw db now wreq).1 = .ok t1 ∧ t1.status = .COMPLETED) ∧
    ((transfer db now treq).1 = .error .insufficientFunds ↔ bal < treq.amount) ∧
    (bal < treq.amount → transfer db now treq = (.error .insufficientFunds, db)) := by
  have hval : validate_account db wreq.account_id wreq.currency = .ok acc := by
    unfold validate_account
    rw [hacc]
    dsimp only
    rw [if_neg (by simp [hst]), if_neg (by simp [hcur])]
  have hvald : validate_account db treq.destination_account_id wreq.currency = .ok dacc := by
    unfold validate_account
    rw [hdacc]
    dsimp only
    rw [if_neg (by simp [hdst]), if_neg (by simp [hdcur])]
  have hwmain :
      ((withdraw db now wreq).1 = .error .insufficientFunds ↔ bal < wreq.amount) ∧
      (bal < wreq.amount → withdraw db now wreq = (.error .insufficientFunds, db)) ∧
      (¬ bal < wreq.amount →
        ∃ t1, (withdraw db now wreq).1 = .ok t1 ∧ t1.status = .COMPLETED) := by
    unfold withdraw
    rw [hk]
    dsimp only
    rw [hval]
    dsimp only
    unfold get_or_create_cash_account
    rw [hcash]
    dsimp only
    rw [hbal]
    dsimp only
    by_cases hlt : bal < wreq.amount
    · rw [if_pos hlt]
      exact ⟨by simp [hlt], fun _ => rfl, fun hn => absurd hlt hn⟩
    · rw [if_neg hlt]
      refine ⟨?_, fun hcon => absurd hcon hlt, fun _ => ?_⟩
      · split
        · simp [hlt]
        · rename_i e hpost
          rcases post_entries_error_kind _ now _ e hpost with rfl | rfl | rfl | rfl <;>
            simp [hlt]
      · split
        · exact ⟨_, rfl, rfl⟩
        · rename_i e hpost
          exfalso
          apply post_entries_never_errors _ now _ e hpost ?_ ?_
          · intro i hi
            dsimp only at hi
            simp only [List.map_cons, List.map_nil, List.mem_cons,
              List.not_mem_nil, or_false] at hi
            rcases hi with rfl | rfl
            · exact hlaok
            · exact hcashok
          · rfl
  have htmain :
      ((transfer db now treq).1 = .error .insufficientFunds ↔ bal < treq.amount) ∧
      (bal < treq.amount → transfer db now treq = (.error .insufficientFunds, db)) := by
    unfold transfer
    rw [hk2]
    dsimp only
    rw [hdiff]
    rw [if_neg (by simp : ¬(false = true))]
    rw [hsrc, htcur, hval]
    dsimp only
    rw [hvald]
    dsimp only
    rw [hbal]
    dsimp only
    by_cases hlt : bal < treq.amount
    · rw [if_pos hlt]
      exact ⟨by simp [hlt], fun _ => rfl⟩
    · rw [if_neg hlt]
      refine ⟨?_, fun hcon => absurd hcon hlt⟩
      split
      · simp [hlt]
      · rename_i e hpost
        rcases post_entries_error_kind _ now _ e hpost with rfl | rfl | rfl | rfl <;>
          simp [hlt]
  exact ⟨hwmain.1, hwmain.2.1,
    fun heq => hwmain.2.2 (by rw [heq]; exact lt_irrefl bal),
    htmain.1, htmain.2⟩

/-- Net per-account effect distributes over appending entry batches. -/
theorem netBalance_append (i : Nat) (l1 l2 : List LedgerEntry) :
    netBalance i (l1 ++ l2) = netBalance i l1 + netBalance i l2 := by
  simp [netBalance]

/-- The rows built from the reversal images of a batch have, on every
account, exactly the opposite net effect of the batch. -/
theorem netBalance_reversal (i : Nat) (s now u : Nat) (cur : String)
    (l : List LedgerEntry) :
    netBalance i (mkEntries s now u cur (l.map reversalCreate)) = - netBalance i l := by
  induction l generalizing s with
  | nil => simp [netBalance, mkEntries]
  | cons e l ih =>
    simp only [List.map_cons, mkEntries, netBalance, List.sum_cons] at *
    rw [ih (s + 1)]
    cases he : e.entry_type <;> by_cases h : (e.account_id == i) = true <;>
      simp [reversalCreate, swapDirection, he, h] <;> ring

/-- The reversal images of a batch swap its direction totals. -/
theorem requestTotal_reversal (l : List LedgerEntry) :
    requestTotal (l.map reversalCreate) .DEBIT = entriesTotal l .CREDIT ∧
    requestTotal (l.map reversalCreate) .CREDIT = entriesTotal l .DEBIT := by
  induction l with
  | nil => exact ⟨rfl, rfl⟩
  | cons e l ih =>
    obtain ⟨h1, h2⟩ := ih
    cases he : e.entry_type <;>
      constructor <;>
      simp [requestTotal, entriesTotal, reversalCreate, swapDirection,
        List.filter_cons, he] at h1 h2 ⊢ <;>
      simp [h1, h2, entriesTotal, requestTotal]

/-- The rows built from the reversal images keep each original entry's
account and amount, swap its direction, and prefix its description. -/
theorem mkEntries_reversal_mirror (s now u : Nat) (cur : String)
    (l : List LedgerEntry) :
    ((mkEntries s now u cur (l.map reversalCreate)).map
        (fun e => (e.account_id, e.amount)) = l.map (fun e => (e.account_id, e.amount))) ∧
    ((mkEntries s now u cur (l.map reversalCreate)).map (fun e => e.entry_type)
        = l.map (fun e => swapDirection e.entry_type)) ∧
    ((mkEntries s now u cur (l.map reversalCreate)).map (fun e => e.description)
        = l.map (fun e => "Reversal: " ++ e.description)) := by
  induction l generalizing s with
  | nil => exact ⟨rfl, rfl, rfl⟩
  | cons e l ih =>
    obtain ⟨h1, h2, h3⟩ := ih (s + 1)
    exact ⟨by simp [mkEntries, reversalCreate, h1],
      by simp [mkEntries, reversalCreate, h2],
      by simp [mkEntries, reversalCreate, h3]⟩

/-- A successful posting of a fresh transaction id inserts exactly the
built rows of a balanced request. -/
theorem post_entries_ok_fresh (db : DB) (now : Nat) (req : PostEntriesRequest)
    (r : List LedgerEntry) (db1 : DB) (h : post_entries db now req = .ok (r, db1))
    (hdup : db.ledger_entries.any (fun e => e.transaction_id == req.transaction_id) = false) :
    db1 = { db with
      ledger_entries := db.ledger_entries
        ++ mkEntries db.next_entry_id now req.transaction_id req.currency req.entries
      next_entry_id := db.next_entry_id + req.entries.length } := by
  unfold post_entries at h
  rw [hdup] at h
  simp only [Bool.false_eq_true, if_false] at h
  split at h
  · simp at h
  · split at h
    · simp at h
    · split at h
      · simp at h
      · split at h
        · simp at h
        · simp only [Except.ok.injEq, Prod.mk.injEq] at h
          exact h.2.symm

/-- Mapping an id-preserving rewrite over the table maps the row an
id-keyed lookup finds. -/
theorem find_map_of_id (l : List Transaction) (tid : Nat) (T : Transaction)
    (f : Transaction → Transaction) (hpres : ∀ x, (f x).id = x.id)
    (hfind : l.find? (fun t => t.id == tid) = some T) :
    (l.map f).find? (fun t => t.id == tid) = some (f T) := by
  induction l with
  | nil => simp at hfind
  | cons a l ih =>
    rw [List.find?_cons] at hfind
    rw [List.map_cons, List.find?_cons]
    by_cases hp : (a.id == tid) = true
    · rw [hp] at hfind
      have hpa : ((f a).id == tid) = true := by rw [hpres a]; exact hp
      rw [hpa]
      injection hfind with hfa
      rw [hfa]
    · rw [Bool.not_eq_true] at hp
      rw [hp] at hfind
      have hpa : ((f a).id == tid) = false := by rw [hpres a]; exact hp
      rw [hpa]
      exact ih hfind

/-- C5: with a fresh key, a COMPLETED original transaction whose posted
entries all validate and balance, a fresh reversal uuid and in-range
transaction ids, `reverse` completes: it returns a COMPLETED REVERSAL
carrying `reference_transaction_id = T.id` with T's amount and currency,
appends exactly the mirror rows of T's entries — same accounts and
amounts, swapped directions, descriptions prefixed with the reversal
marker — and flips T to REVERSED; the net effect of T's entries plus the
appended rows is zero on every account. On a transaction in any status
other than COMPLETED, `reverse` fails with NotReversible and changes
nothing. -/
theorem reversal_correct
    (db : DB) (now tid : Nat) (k : String) (T : Transaction) (u : Nat)
    (hk : check_idempotency db k = none)
    (hT : findTransaction db tid = some T)
    (hst : T.status = .COMPLETED)
    (hu : T.ledger_transaction_id = some u)
    (hacct : ∀ i ∈ (get_entries_by_transaction db u).map (fun e => e.account_id),
      accountOkB db T.currency i = true)
    (hbalE : entriesTotal (get_entries_by_transaction db u) .DEBIT
      = entriesTotal (get_entries_by_transaction db u) .CREDIT)
    (hfresh : db.ledger_entries.any (fun e => e.transaction_id == db.next_uuid) = false)
    (hbound : ∀ t ∈ db.transactions, t.id < db.next_txn_id)
    (db2 : DB) (now2 tid2 : Nat) (k2 : String) (T2 : Transaction)
    (hk2 : check_idempotency db2 k2 = none)
    (hT2 : findTransaction db2 tid2 = some T2)
    (hst2 : T2.status ≠ .COMPLETED) :
    (∃ r db1, reverse db now tid k = (.ok r, db1) ∧
      r.transaction_type = .REVERSAL ∧ r.status = .COMPLETED ∧
      r.reference_transaction_id = some T.id ∧ r.amount = T.amount ∧
      r.currency = T.currency ∧
      db1.ledger_entries = db.ledger_entries
        ++ mkEntries db.next_entry_id now db.next_uuid T.currency
            ((get_entries_by_transaction db u).map reversalCreate) ∧
      findTransaction db1 tid = some { T with status := TransactionStatus.REVERSED }) ∧
    ((mkEntries db.next_entry_id now db.next_uuid T.currency
        ((get_entries_by_transaction db u).map reversalCreate)).map
          (fun e => (e.account_id, e.amount))
      = (get_entries_by_transaction db u).map (fun e => (e.account_id, e.amount))) ∧
    ((mkEntries db.next_entry_id now db.next_uuid T.currency
        ((get_entries_by_transaction db u).map reversalCreate)).map
          (fun e => e.entry_type)
      = (get_entries_by_transaction db u).map (fun e => swapDirection e.entry_type)) ∧
    ((mkEntries db.next_entry_id now db.next_uuid T.currency
        ((get_entries_by_transaction db u).map reversalCreate)).map
          (fun e => e.description)
      = (get_entries_by_transaction db u).map (fun e => "Reversal: " ++ e.description)) ∧
    (∀ i, netBalance i (get_entries_by_transaction db u
        ++ mkEntries db.next_entry_id now db.next_uuid T.currency
            ((get_entries_by_transaction db u).map reversalCreate)) = 0) ∧
    reverse db2 now2 tid2 k2 = (.error .notReversible, db2) := by
  have hTid : T.id = tid := by
    have := List.find?_some hT
    simpa using this
  have hTmem : T ∈ db.transactions := List.mem_of_find?_eq_some hT
  have hTlt : T.id < db.next_txn_id := hbound T hTmem
  refine ⟨?_, (mkEntries_reversal_mirror _ now _ _ _).1,
    (mkEntries_reversal_mirror _ now _ _ _).2.1,
    (mkEntries_reversal_mirror _ now _ _ _).2.2,
    fun i => by rw [netBalance_append, netBalance_reversal]; ring, ?_⟩
  · unfold reverse
    rw [hk]
    dsimp only
    rw [hT]
    dsimp only
    rw [if_neg (by simp [hst])]
    rw [hu]
    dsimp only
    split
    · rename_i rr db4 hpost
      have hgrow := post_entries_ok_fresh _ now _ rr db4 hpost hfresh
      refine ⟨_, _, rfl, rfl, rfl, rfl, rfl, rfl, ?_, ?_⟩
      · rw [hgrow]
        rfl
      · -- the original is flipped to REVERSED, the lookup still finds it
        unfold updateTransaction findTransaction
        dsimp only
        rw [hgrow]
        dsimp only
        refine Eq.trans (find_map_of_id _ tid _ _ ?_ (find_map_of_id _ tid T _ ?_ ?_)) ?_
        · intro x
          dsimp only
          split
          · rename_i hxx
            rw [show x.id = db.next_txn_id from by simpa using hxx]
          · rfl
        · intro x
          dsimp only
          split
          · rename_i hxx
            rw [show x.id = T.id from by simpa using hxx]
          · rfl
        · rw [List.find?_append,
            show List.find? (fun t => t.id == tid) db.transactions = some T from hT]
          rfl
        · dsimp only
          simp only [beq_self_eq_true, if_true]
          rw [if_neg (by simp [Nat.ne_of_lt hTlt])]
    · rename_i e hpost
      exfalso
      apply post_entries_never_errors _ now _ e hpost ?_ ?_
      · intro i hi
        dsimp only at hi
        rw [List.map_map] at hi
        have hi2 : i ∈ (get_entries_by_transaction db u).map (fun e => e.account_id) := by
          simpa [reversalCreate, Function.comp] using hi
        exact hacct i hi2
      · dsimp only
        rw [(requestTotal_reversal _).1, (requestTotal_reversal _).2]
        exact hbalE.symm
  · unfold reverse
    rw [hk2]
    dsimp only
    rw [hT2]
    dsimp only
    rw [if_pos hst2]

/-- Witness for C5: reversing the completed deposit of the concrete state
returns a COMPLETED REVERSAL referencing it, appends the two mirror rows,
flips the deposit to REVERSED, and nets to zero on every account; the
FAILED transaction is rejected as not reversible. -/
theorem reversal_correct_witness :
    (∃ r db1, reverse c5db 9 1 "rev-1" = (.ok r, db1) ∧
      r.transaction_type = .REVERSAL ∧ r.status = .COMPLETED ∧
      r.reference_transaction_id = some c5T.id ∧ r.amount = c5T.amount ∧
      r.currency = c5T.currency ∧
      db1.ledger_entries = c5db.ledger_entries
        ++ mkEntries c5db.next_entry_id 9 c5db.next_uuid c5T.currency
            ((get_entries_by_transaction c5db 1).map reversalCreate) ∧
      findTransaction db1 1 = some { c5T with status := TransactionStatus.REVERSED }) ∧
    ((mkEntries c5db.next_entry_id 9 c5db.next_uuid c5T.currency
        ((get_entries_by_transaction c5db 1).map reversalCreate)).map
          (fun e => (e.account_id, e.amount))
      = (get_entries_by_transaction c5db 1).map (fun e => (e.account_id, e.amount))) ∧
    ((mkEntries c5db.next_entry_id 9 c5db.next_uuid c5T.currency
        ((get_entries_by_transaction c5db 1).map reversalCreate)).map
          (fun e => e.entry_type)
      = (get_entries_by_transaction c5db 1).map (fun e => swapDirection e.entry_type)) ∧
    ((mkEntries c5db.next_entry_id 9 c5db.next_uuid c5T.currency
        ((get_entries_by_transaction c5db 1).map reversalCreate)).map
          (fun e => e.description)
      = (get_entries_by_transaction c5db 1).map (fun e => "Reversal: " ++ e.description)) ∧
    (∀ i, netBalance i (get_entries_by_transaction c5db 1
        ++ mkEntries c5db.next_entry_id 9 c5db.next_uuid c5T.currency
            ((get_entries_by_transaction c5db 1).map reversalCreate)) = 0) ∧
    reverse c5db 9 2 "rev-2" = (.error .notReversible, c5db) :=
  reversal_correct c5db 9 1 "rev-1" c5T 1 rfl rfl rfl rfl (by decide) (by decide)
    rfl (by decide) c5db 9 2 "rev-2" c5T2 rfl rfl (by decide)

/-- Witness for C6: on the concrete state with balance 500.0000, the
exact-balance withdrawal of 500.0000 completes, and the 600.0000 transfer
fails with InsufficientFunds leaving the state untouched. -/
theorem insufficient_funds_rule_witness :
    ((withdraw c6db 7 c6wreq).1 = .error .insufficientFunds ↔ (5000000 : Int) < c6wreq.amount) ∧
    ((5000000 : Int) < c6wreq.amount → withdraw c6db 7 c6wreq = (.error .insufficientFunds, c6db)) ∧
    (c6wreq.amount = 5000000 → ∃ t1, (withdraw c6db 7 c6wreq).1 = .ok t1 ∧ t1.status = .COMPLETED) ∧
    ((transfer c6db 7 c6treq).1 = .error .insufficientFunds ↔ (5000000 : Int) < c6treq.amount) ∧
    ((5000000 : Int) < c6treq.amount → transfer c6db 7 c6treq = (.error .insufficientFunds, c6db)) :=
  insufficient_funds_rule c6db 7 c6wreq c6treq c6acc c6dacc c6cash 5000000
    rfl rfl rfl rfl rfl rfl rfl rfl rfl rfl rfl rfl rfl rfl rfl

/-- Counterexample for C8: with the cash account already created in USD, a
deposit in EUR does not attempt a second creation and does not fail with
Conflict — the existing row is found and reused, and the operation fails
with CurrencyMismatch when the posting validates the cash account's
currency; the chart of accounts is left unchanged. -/
theorem cash_currency_not_conflict :
    (deposit c8db 3 c8req).1 = .error .currencyMismatch ∧
    (deposit c8db 3 c8req).2.ledger_accounts = c8db.ledger_accounts ∧
    Err.currencyMismatch ≠ Err.conflict := by
  refine ⟨rfl, rfl, by decide⟩

/-- A posting of a fresh transaction id cannot succeed when some
referenced account exists with a different currency. -/
theorem post_entries_ok_currency_absurd (db : DB) (now : Nat)
    (req : PostEntriesRequest) (r : List LedgerEntry) (db1 : DB)
    (h : post_entries db now req = .ok (r, db1))
    (hdup : db.ledger_entries.any (fun e => e.transaction_id == req.transaction_id) = false)
    (hbad : ∃ i ∈ req.entries.map (fun x => x.account_id),
      ∃ a, findLedgerAccount db i = some a ∧ a.currency ≠ req.currency) :
    False := by
  unfold post_entries at h
  rw [hdup] at h
  simp only [Bool.false_eq_true, if_false] at h
  split at h
  · simp at h
  · split at h
    · simp at h
    · split at h
      · simp at h
      · rename_i hcurf
        obtain ⟨i, hi, a, hfa, hne⟩ := hbad
        rw [Bool.not_eq_true] at hcurf
        have := List.any_eq_false.1 hcurf i (List.mem_dedup.2 hi)
        rw [hfa] at this
        simp at this
        exact hne this

/-- When the referenced accounts all exist and are active but some carries
a different currency, a posting of a fresh transaction id raises exactly
the currency-mismatch error. -/
theorem post_entries_error_currency (db : DB) (now : Nat)
    (req : PostEntriesRequest) (e : Err)
    (h : post_entries db now req = .error e)
    (hdup : db.ledger_entries.any (fun x => x.transaction_id == req.transaction_id) = false)
    (hfound : ∀ i ∈ req.entries.map (fun x => x.account_id),
      ∃ a, findLedgerAccount db i = some a ∧ a.is_active = true)
    (hbad : ∃ i ∈ req.entries.map (fun x => x.account_id),
      ∃ a, findLedgerAccount db i = some a ∧ a.currency ≠ req.currency) :
    e = .currencyMismatch := by
  unfold post_entries at h
  rw [hdup] at h
  simp only [Bool.false_eq_true, if_false] at h
  split at h
  · rename_i hany
    obtain ⟨i, hi, hnone⟩ := List.any_eq_true.1 hany
    obtain ⟨a, hfa, _⟩ := hfound i (List.mem_dedup.1 hi)
    rw [hfa] at hnone
    simp at hnone
  · split at h
    · rename_i hany
      obtain ⟨i, hi, hbadact⟩ := List.any_eq_true.1 hany
      obtain ⟨a, hfa, hact⟩ := hfound i (List.mem_dedup.1 hi)
      rw [hfa] at hbadact
      simp [hact] at hbadact
    · split at h
      · simp only [Except.error.injEq] at h
        exact h.symm
      · rename_i hcurf
        exfalso
        obtain ⟨i, hi, a, hfa, hne⟩ := hbad
        rw [Bool.not_eq_true] at hcurf
        have := List.any_eq_false.1 hcurf i (List.mem_dedup.2 hi)
        rw [hfa] at this
        simp at this
        exact hne this

/-- C8 amended: the cash account is created lazily by the first deposit,
as one row carrying that operation's currency; a later deposit in a
different currency finds and reuses that row — no second creation is
attempted — and fails with CurrencyMismatch when the posting validates the
cash account's currency, leaving the chart of accounts unchanged. -/
theorem cash_account_currency
    (dba : DB) (nowa : Nat) (reqa : DepositRequest) (acca : Account)
    (hka : check_idempotency dba reqa.idempotency_key = none)
    (hacca : findAccount dba reqa.account_id = some acca)
    (hsta : acca.status = .ACTIVE)
    (hcura : acca.currency = reqa.currency)
    (hnocash : dba.ledger_accounts.find? (fun a => a.code == CASH_ACCOUNT_CODE) = none)
    (db : DB) (now : Nat) (req : DepositRequest) (acc : Account)
    (cash la : LedgerAccount)
    (hk : check_idempotency db req.idempotency_key = none)
    (hacc : findAccount db req.account_id = some acc)
    (hst : acc.status = .ACTIVE)
    (hcur : acc.currency = req.currency)
    (hcash : db.ledger_accounts.find? (fun a => a.code == CASH_ACCOUNT_CODE) = some cash)
    (hcasha : cash.is_active = true)
    (hne : cash.currency ≠ req.currency)
    (hcashid : findLedgerAccount db cash.id = some cash)
    (hla : findLedgerAccount db acc.ledger_account_id = some la)
    (hlaa : la.is_active = true)
    (hfresh : db.ledger_entries.any (fun e => e.transaction_id == db.next_uuid) = false) :
    (∃ c, c ∈ (deposit dba nowa reqa).2.ledger_accounts ∧
      c.code = CASH_ACCOUNT_CODE ∧ c.currency = reqa.currency) ∧
    (deposit db now req).1 = .error .currencyMismatch ∧
    (deposit db now req).2.ledger_accounts = db.ledger_accounts := by
  have hvala : validate_account dba reqa.account_id reqa.currency = .ok acca := by
    unfold validate_account
    rw [hacca]
    dsimp only
    rw [if_neg (by simp [hsta]), if_neg (by simp [hcura])]
  have hval : validate_account db req.account_id req.currency = .ok acc := by
    unfold validate_account
    rw [hacc]
    dsimp only
    rw [if_neg (by simp [hst]), if_neg (by simp [hcur])]
  refine ⟨?_, ?_⟩
  · unfold deposit
    rw [hka]
    dsimp only
    rw [hvala]
    dsimp only
    unfold get_or_create_cash_account
    rw [hnocash]
    dsimp only
    unfold create_ledger_account
    have hanyf : (dba.ledger_accounts.any (fun a => a.code == CASH_ACCOUNT_CODE)) = false := by
      rw [List.any_eq_false]
      intro a ha
      simpa using List.find?_eq_none.1 hnocash a ha
    rw [hanyf]
    simp only [Bool.false_eq_true, if_false]
    split
    · rename_i rr db4 hpost
      have hpt := post_entries_txns _ nowa _ rr db4 hpost
      show ∃ c, c ∈ db4.ledger_accounts ∧
        c.code = CASH_ACCOUNT_CODE ∧ c.currency = reqa.currency
      rw [hpt.2.2.1]
      dsimp only
      exact ⟨_, List.mem_append_right _ (List.mem_singleton.2 rfl), rfl, rfl⟩
    · dsimp only
      exact ⟨_, List.mem_append_right _ (List.mem_singleton.2 rfl), rfl, rfl⟩
  · unfold deposit
    rw [hk]
    dsimp only
    rw [hval]
    dsimp only
    unfold get_or_create_cash_account
    rw [hcash]
    dsimp only
    split
    · rename_i rr db4 hpost
      exfalso
      apply post_entries_ok_currency_absurd _ now _ rr db4 hpost hfresh
      refine ⟨cash.id, by simp, cash, hcashid, hne⟩
    · rename_i e hpost
      have he : e = .currencyMismatch := by
        apply post_entries_error_currency _ now _ e hpost hfresh ?_ ?_
        · intro i hi
          dsimp only at hi
          simp only [List.map_cons, List.map_nil, List.mem_cons,
            List.not_mem_nil, or_false] at hi
          rcases hi with rfl | rfl
          · exact ⟨cash, hcashid, hcasha⟩
          · exact ⟨la, hla, hlaa⟩
        · exact ⟨cash.id, by simp, cash, hcashid, hne⟩
      rw [he]
      exact ⟨rfl, rfl⟩

/-- Witness for the amended C8: the first EUR deposit on the cash-free
state creates the cash row in EUR; the EUR deposit on the USD-cash state
reuses the USD row and fails with CurrencyMismatch, creating nothing. -/
theorem cash_account_currency_witness :
    (∃ c, c ∈ (deposit c8adb 3 c8req).2.ledger_accounts ∧
      c.code = CASH_ACCOUNT_CODE ∧ c.currency = c8req.currency) ∧
    (deposit c8db 3 c8req).1 = .error .currencyMismatch ∧
    (deposit c8db 3 c8req).2.ledger_accounts = c8db.ledger_accounts :=
  cash_account_currency c8adb 3 c8req c8acc rfl rfl rfl rfl rfl
    c8db 3 c8req c8acc c8cash c8la rfl rfl rfl rfl rfl rfl (by decide) rfl rfl rfl rfl

end CoreBanking
